import Mathlib

/-!
Verification of the tradescope_analytics service layer.

This file gives a shallow embedding of the repository's three service
classes (`TradingService`, `BrokerCredentialService`, `AuthService`) and
proves (or refutes) the frozen specification claims about them.

Conventions of the embedding:
* JavaScript/JSON values are the inductive `JsVal`; missing object fields
  are `Option.none` results of `JsVal.get`, distinguishing `undefined`
  from `JsVal.null`.
* The supabase backend client, browser `fetch`, and `auth.getUser` are an
  explicit environment `Env`; each thrown exception is an outcome
  constructor and every `try/catch` of the source is an explicit `match`.
* Every service operation is a pure function `Env → JsVal × List Request`
  returning the result object built by the source code together with the
  ordered trace of backend and remote requests it issued.
* Machine numbers are modelled as `Rat`.
-/

/-- A JSON-style JavaScript value, as stored in backend rows and returned
by the service operations. -/
inductive JsVal where
  | null
  | bool (b : Bool)
  | num (q : Rat)
  | str (s : String)
  | arr (xs : List JsVal)
  | obj (fs : List (String × JsVal))

/-- Scalar JSON values: the field values occurring in credential records. -/
def JsVal.isScalar : JsVal → Bool
  | .null | .bool _ | .str _ => true
  | _ => false

/-- Field access `o?.k`: `none` models JavaScript `undefined` (key absent
or receiver not an object). -/
def JsVal.get : JsVal → String → Option JsVal
  | .obj fs, k => fs.lookup k
  | _, _ => none

/-- Whether a JavaScript object literally carries a field named `k`. -/
def JsVal.hasField (v : JsVal) (k : String) : Bool :=
  (v.get k).isSome

/-- JavaScript truthiness of a value. -/
def JsVal.truthy : JsVal → Bool
  | .null => false
  | .bool b => b
  | .num q => q != 0
  | .str s => s != ""
  | .arr _ => true
  | .obj _ => true

/-- Truthiness of a possibly-undefined value (`undefined` is falsy). -/
def jsTruthy : Option JsVal → Bool
  | none => false
  | some v => v.truthy

/-- `a || b` on possibly-undefined values. -/
def jsOr (a : Option JsVal) (b : JsVal) : JsVal :=
  match a with
  | some v => if v.truthy then v else b
  | none => b

/-- Spread update `{...o, k: v}` restricted to the override it performs. -/
def JsVal.setField (v : JsVal) (k : String) (w : JsVal) : JsVal :=
  match v with
  | .obj fs => .obj ((fs.filter (fun kv => kv.1 ≠ k)) ++ [(k, w)])
  | other => other

mutual
/-- Structural boolean equality on `JsVal` (used to state value-membership
properties concretely). -/
def JsVal.beq : JsVal → JsVal → Bool
  | .null, .null => true
  | .bool a, .bool b => a == b
  | .num a, .num b => a == b
  | .str a, .str b => a == b
  | .arr xs, .arr ys => JsVal.beqElems xs ys
  | .obj fs, .obj gs => JsVal.beqFields fs gs
  | _, _ => false

def JsVal.beqElems : List JsVal → List JsVal → Bool
  | [], [] => true
  | x :: xs, y :: ys => JsVal.beq x y && JsVal.beqElems xs ys
  | _, _ => false

def JsVal.beqFields : List (String × JsVal) → List (String × JsVal) → Bool
  | [], [] => true
  | (k, v) :: xs, (l, w) :: ys => k == l && JsVal.beq v w && JsVal.beqFields xs ys
  | _, _ => false
end

mutual
/-- The atomic (non-container) values reachable inside a value. -/
def JsVal.leaves : JsVal → List JsVal
  | .arr xs => JsVal.leavesElems xs
  | .obj fs => JsVal.leavesFields fs
  | v => [v]

def JsVal.leavesElems : List JsVal → List JsVal
  | [] => []
  | x :: xs => JsVal.leaves x ++ JsVal.leavesElems xs

def JsVal.leavesFields : List (String × JsVal) → List JsVal
  | [] => []
  | (_, v) :: fs => JsVal.leaves v ++ JsVal.leavesFields fs
end

/-- `JsVal.beq`-based membership in a list of values. -/
def jsMem (v : JsVal) (xs : List JsVal) : Bool :=
  xs.any (fun w => JsVal.beq v w)

/- ### JSON serialization (the JS built-in `JSON.stringify`, modelled) -/

/-- JSON string escaping of one character (quote and backslash). -/
def escC (c : Char) : List Char := if c = '"' ∨ c = '\\' then ['\\', c] else [c]

/-- JSON string escaping. -/
def escStr (s : List Char) : List Char := s.flatMap escC

mutual
/-- Modelled from the JS built-in `JSON.stringify` (not repository code):
canonical JSON text of a value, no whitespace.  Numeric serialization is
outside the verified fragment (credential payloads are string/null
records). -/
def stringifyV : JsVal → List Char
  | .null => "null".data
  | .bool true => "true".data
  | .bool false => "false".data
  | .num q => (if q.den = 1 then toString q.num else toString q).data
  | .str s => '"' :: escStr s.data ++ ['"']
  | .arr xs => '[' :: stringifyElems xs ++ [']']
  | .obj fs => '{' :: stringifyFields fs ++ ['}']

def stringifyElems : List JsVal → List Char
  | [] => []
  | [v] => stringifyV v
  | v :: w :: rest => stringifyV v ++ ',' :: stringifyElems (w :: rest)

def stringifyFields : List (String × JsVal) → List Char
  | [] => []
  | [(k, v)] => '"' :: escStr k.data ++ '"' :: ':' :: stringifyV v
  | (k, v) :: p :: rest =>
      '"' :: escStr k.data ++ '"' :: ':' :: stringifyV v ++ ',' :: stringifyFields (p :: rest)
end

/-- JSON text of a value, as a string. -/
def jsonStringify (v : JsVal) : String := String.mk (stringifyV v)

/- ### JSON parsing (the JS built-in `JSON.parse`, modelled on the
record fragment the credential service round-trips) -/

/-- Parse the body of a JSON string after the opening quote; `fuel` bounds
the number of decoded characters. -/
def parseStrBody : Nat → List Char → Option (List Char × List Char)
  | 0, _ => none
  | _ + 1, [] => none
  | fuel + 1, c :: rest =>
    if c = '"' then some ([], rest)
    else if c = '\\' then
      match rest with
      | [] => none
      | d :: rest2 =>
        if d = '"' ∨ d = '\\' then
          match parseStrBody fuel rest2 with
          | some (s, r) => some (d :: s, r)
          | none => none
        else none
    else
      match parseStrBody fuel rest with
      | some (s, r) => some (c :: s, r)
      | none => none

/-- Consume an expected literal character sequence. -/
def dropLit : List Char → List Char → Option (List Char)
  | [], cs => some cs
  | _ :: _, [] => none
  | l :: ls, c :: cs => if c = l then dropLit ls cs else none

/-- Parse one scalar JSON value (string, null, true, false); `fuel` bounds
string decoding. -/
def parseScalar (fuel : Nat) : List Char → Option (JsVal × List Char)
  | [] => none
  | c :: rest =>
    if c = '"' then
      match parseStrBody fuel rest with
      | some (s, r) => some (.str (String.mk s), r)
      | none => none
    else if c = 'n' then
      match dropLit "ull".data rest with
      | some r => some (.null, r)
      | none => none
    else if c = 't' then
      match dropLit "rue".data rest with
      | some r => some (.bool true, r)
      | none => none
    else if c = 'f' then
      match dropLit "alse".data rest with
      | some r => some (.bool false, r)
      | none => none
    else none

/-- Parse a non-empty sequence of `"key":scalar` pairs terminated by `}`,
returning the fields and the input after the brace. -/
def parsePairsLoop : Nat → List Char → Option (List (String × JsVal) × List Char)
  | 0, _ => none
  | _ + 1, [] => none
  | fuel + 1, c :: rest =>
    if c = '"' then
      match parseStrBody (fuel + 1) rest with
      | none => none
      | some (k, r1) =>
        match r1 with
        | [] => none
        | d :: r2 =>
          if d = ':' then
            match parseScalar (fuel + 1) r2 with
            | none => none
            | some (v, r3) =>
              match r3 with
              | [] => none
              | e :: r4 =>
                if e = ',' then
                  match parsePairsLoop fuel r4 with
                  | none => none
                  | some (fs, r5) => some ((String.mk k, v) :: fs, r5)
                else if e = '}' then some ([(String.mk k, v)], r4)
                else none
          else none
    else none

/-- Modelled from the JS built-in `JSON.parse` (not repository code), on
the fragment the credential service actually round-trips: a flat record of
scalar fields.  `none` models a thrown `SyntaxError`. -/
def jsonParse (s : String) : Option JsVal :=
  match s.data with
  | [] => none
  | c :: rest =>
    if c = '{' then
      match rest with
      | [] => none
      | d :: r2 =>
        if d = '}' then (if r2 = [] then some (.obj []) else none)
        else
          match parsePairsLoop rest.length rest with
          | some (fs, r) => if r = [] then some (.obj fs) else none
          | none => none
    else none

/- ### Roundtrip lemmas for the JSON model -/

theorem escStr_length_ge (s : List Char) : s.length ≤ (escStr s).length := by
  induction s with
  | nil => simp [escStr]
  | cons c cs ih =>
    have h1 : 1 ≤ (escC c).length := by
      unfold escC; split <;> simp
    simp only [escStr, List.flatMap_cons, List.length_append, List.length_cons]
    simp only [escStr] at ih
    omega

theorem parseStrBody_roundtrip (s : List Char) :
    ∀ fuel rest, s.length < fuel →
      parseStrBody fuel (escStr s ++ '"' :: rest) = some (s, rest) := by
  induction s with
  | nil =>
    intro fuel rest hlen
    cases fuel with
    | zero => omega
    | succ f => simp [escStr, parseStrBody]
  | cons c cs ih =>
    intro fuel rest hlen
    cases fuel with
    | zero => omega
    | succ f =>
      have hcs : cs.length < f := by simp at hlen; omega
      by_cases hc : c = '"' ∨ c = '\\'
      · have hesc : escStr (c :: cs) = '\\' :: c :: escStr cs := by
          simp only [escStr, List.flatMap_cons, escC, if_pos hc]; rfl
        rw [hesc]
        have h1 : ¬ ('\\' : Char) = '"' := by decide
        simp [parseStrBody, h1, hc, ih f rest hcs]
      · push_neg at hc
        have hesc : escStr (c :: cs) = c :: escStr cs := by
          simp only [escStr, List.flatMap_cons, escC]
          rw [if_neg (by tauto)]; rfl
        rw [hesc]
        simp [parseStrBody, hc.1, hc.2, ih f rest hcs]

theorem dropLit_self (lit : List Char) : ∀ rest, dropLit lit (lit ++ rest) = some rest := by
  induction lit with
  | nil => intro rest; rfl
  | cons c cs ih => intro rest; simp [dropLit, ih]

theorem parseScalar_roundtrip (v : JsVal) (hv : v.isScalar = true) :
    ∀ fuel rest, (stringifyV v).length ≤ fuel →
      parseScalar fuel (stringifyV v ++ rest) = some (v, rest) := by
  intro fuel rest hfuel
  match v with
  | .null =>
    have h : stringifyV .null ++ rest = 'n' :: ("ull".data ++ rest) := rfl
    rw [h]
    simp [parseScalar, dropLit]
  | .bool true =>
    have h : stringifyV (.bool true) ++ rest = 't' :: ("rue".data ++ rest) := rfl
    rw [h]
    simp [parseScalar, dropLit]
  | .bool false =>
    have h : stringifyV (.bool false) ++ rest = 'f' :: ("alse".data ++ rest) := rfl
    rw [h]
    simp [parseScalar, dropLit]
  | .str s =>
    have h : stringifyV (.str s) ++ rest = '"' :: (escStr s.data ++ '"' :: rest) := by
      simp [stringifyV]
    rw [h]
    have hlen : s.data.length < fuel := by
      have h1 := escStr_length_ge s.data
      have h2 : (stringifyV (.str s)).length = (escStr s.data).length + 2 := by
        simp [stringifyV]
      omega
    have hp := parseStrBody_roundtrip s.data fuel ('"' :: rest)
    simp [parseScalar, parseStrBody_roundtrip s.data fuel rest hlen]
  | .num _ => simp [JsVal.isScalar] at hv
  | .arr _ => simp [JsVal.isScalar] at hv
  | .obj _ => simp [JsVal.isScalar] at hv

/-- Flatness: every field value of the record is a scalar. -/
def flatFields (fs : List (String × JsVal)) : Bool :=
  fs.all (fun kv => kv.2.isScalar)

theorem parsePairsLoop_roundtrip (fs : List (String × JsVal)) :
    ∀ fuel rest, fs ≠ [] → flatFields fs = true →
      (stringifyFields fs).length ≤ fuel →
      parsePairsLoop fuel (stringifyFields fs ++ '}' :: rest) = some (fs, rest) := by
  match fs with
  | [] => intro _ _ hne _ _; exact absurd rfl hne
  | [(k, v)] =>
    intro fuel rest _ hflat hlen
    cases fuel with
    | zero => simp [stringifyFields] at hlen
    | succ f =>
      have hv : v.isScalar = true := by simp [flatFields] at hflat; exact hflat
      have hshape : stringifyFields [(k, v)] ++ '}' :: rest =
          '"' :: (escStr k.data ++ '"' :: (':' :: (stringifyV v ++ '}' :: rest))) := by
        simp [stringifyFields]
      have hlens : (stringifyFields [(k, v)]).length =
          (escStr k.data).length + 3 + (stringifyV v).length := by
        simp [stringifyFields]; omega
      rw [hshape]
      have hklen : k.data.length < f + 1 := by
        have := escStr_length_ge k.data
        omega
      have hk := parseStrBody_roundtrip k.data (f + 1)
        (':' :: (stringifyV v ++ '}' :: rest)) hklen
      have hvp := parseScalar_roundtrip v hv (f + 1) ('}' :: rest) (by omega)
      simp [parsePairsLoop, hk, hvp]
  | (k, v) :: p :: ps =>
    intro fuel rest _ hflat hlen
    cases fuel with
    | zero => simp [stringifyFields] at hlen
    | succ f =>
      have hv : v.isScalar = true := by
        simp [flatFields] at hflat; exact hflat.1
      have hflat' : flatFields (p :: ps) = true := by
        simp [flatFields] at hflat ⊢
        exact ⟨hflat.2.1, hflat.2.2⟩
      have hlens : (stringifyFields ((k, v) :: p :: ps)).length =
          (escStr k.data).length + 4 + (stringifyV v).length +
            (stringifyFields (p :: ps)).length := by
        simp [stringifyFields]; omega
      have hlen' : (stringifyFields (p :: ps)).length ≤ f := by omega
      have ih := parsePairsLoop_roundtrip (p :: ps) f rest (by simp) hflat' hlen'
      have hshape : stringifyFields ((k, v) :: p :: ps) ++ '}' :: rest =
          '"' :: (escStr k.data ++ '"' :: (':' :: (stringifyV v ++
            ',' :: (stringifyFields (p :: ps) ++ '}' :: rest)))) := by
        simp [stringifyFields]
      rw [hshape]
      have hklen : k.data.length < f + 1 := by
        have := escStr_length_ge k.data
        omega
      have hk := parseStrBody_roundtrip k.data (f + 1)
        (':' :: (stringifyV v ++ ',' :: (stringifyFields (p :: ps) ++ '}' :: rest))) hklen
      have hvp := parseScalar_roundtrip v hv (f + 1)
        (',' :: (stringifyFields (p :: ps) ++ '}' :: rest)) (by omega)
      simp [parsePairsLoop, hk, hvp, ih]

theorem jsonParse_roundtrip (fs : List (String × JsVal)) (hflat : flatFields fs = true) :
    jsonParse (jsonStringify (.obj fs)) = some (.obj fs) := by
  match fs with
  | [] => rfl
  | (k, v) :: ps =>
    have hs : (jsonStringify (.obj ((k, v) :: ps))).data =
        '{' :: (stringifyFields ((k, v) :: ps) ++ ['}']) := by
      simp [jsonStringify, stringifyV]
    have hhead : ∃ t, stringifyFields ((k, v) :: ps) = '"' :: t := by
      match ps with
      | [] => exact ⟨_, rfl⟩
      | q :: qs => exact ⟨_, rfl⟩
    obtain ⟨t, ht⟩ := hhead
    have hloop := parsePairsLoop_roundtrip ((k, v) :: ps)
      (stringifyFields ((k, v) :: ps) ++ ['}']).length [] (by simp) hflat
      (by simp)
    unfold jsonParse
    rw [hs]
    have hq : ¬ ('"' : Char) = '}' := by decide
    rw [ht] at hloop ⊢
    simp only [List.cons_append, List.nil_append, List.length_cons, List.length_append,
      List.length_nil] at hloop ⊢
    simp [hq, hloop]

/- ### Cipher model and credential encryption -/

/-- Modelled from the spec: `CryptoJS.AES.encrypt` (external library, not
repository code) — "a single reversible cipher call"; modelled as a keyed
reversible transformation of the plaintext string. -/
def aesEncrypt (key plain : String) : String := key ++ plain

/-- Modelled from the spec: the inverse cipher call
(`CryptoJS.AES.decrypt` plus UTF-8 decoding); `none` models output that is
not valid plaintext for this key. -/
def aesDecrypt (key c : String) : Option String :=
  if c.data.take key.data.length = key.data then
    some (String.mk (c.data.drop key.data.length))
  else none

theorem aesDecrypt_aesEncrypt (key plain : String) :
    aesDecrypt key (aesEncrypt key plain) = some plain := by
  unfold aesEncrypt aesDecrypt
  rw [String.data_append, List.take_left, List.drop_left, if_pos rfl]

namespace BrokerCredentialService

/-- Embeds `BrokerCredentialService.encrypt`
(src/services/brokerCredentialService.js, lines 14-20): cipher the JSON
text of the data under the service's `ENCRYPTION_KEY` (a configuration
value, passed here as `key`). -/
def encrypt (key : String) (d : JsVal) : String :=
  aesEncrypt key (jsonStringify d)

/-- Embeds `BrokerCredentialService.decrypt` (lines 25-32): decipher,
then `JSON.parse` the plaintext; `none` models the thrown
`Failed to decrypt credentials` error. -/
def decrypt (key : String) (c : String) : Option JsVal :=
  match aesDecrypt key c with
  | none => none
  | some plain => jsonParse plain

end BrokerCredentialService

/-- C2: credential encryption is a reversible cipher around a JSON blob —
for every credential record `d` (a flat record of scalar JSON fields, as
the service stores), `decrypt (encrypt d) = d` under the same
`ENCRYPTION_KEY`. -/
theorem C2_decrypt_encrypt_roundtrip (key : String) (fs : List (String × JsVal))
    (hflat : flatFields fs = true) :
    BrokerCredentialService.decrypt key
      (BrokerCredentialService.encrypt key (JsVal.obj fs)) = some (JsVal.obj fs) := by
  unfold BrokerCredentialService.encrypt BrokerCredentialService.decrypt
  rw [aesDecrypt_aesEncrypt]
  exact jsonParse_roundtrip fs hflat

/-- Witness for C2 at a concrete credential record under the service's
default key. -/
theorem C2_decrypt_encrypt_roundtrip_witness :
    flatFields [("apiKey", JsVal.str "k1"), ("apiSecret", JsVal.str "s3\"cr\\et"),
      ("userId", JsVal.null), ("password", JsVal.str "p"), ("totpKey", JsVal.null),
      ("serverAddress", JsVal.null)] = true ∧
    BrokerCredentialService.decrypt "default-encryption-key-change-me"
      (BrokerCredentialService.encrypt "default-encryption-key-change-me"
        (JsVal.obj [("apiKey", JsVal.str "k1"), ("apiSecret", JsVal.str "s3\"cr\\et"),
          ("userId", JsVal.null), ("password", JsVal.str "p"), ("totpKey", JsVal.null),
          ("serverAddress", JsVal.null)])) =
      some (JsVal.obj [("apiKey", JsVal.str "k1"), ("apiSecret", JsVal.str "s3\"cr\\et"),
        ("userId", JsVal.null), ("password", JsVal.str "p"), ("totpKey", JsVal.null),
        ("serverAddress", JsVal.null)]) :=
  ⟨by decide, C2_decrypt_encrypt_roundtrip _ _ (by decide)⟩

/- ### Backend client model: queries, requests, outcomes, environment -/

/-- Optional-chained field access `o?.k` on a possibly-undefined value. -/
def optGet (o : Option JsVal) (k : String) : Option JsVal :=
  o.bind (fun v => v.get k)

/-- Template-literal stringification of a value. Numeric and container
rendering is outside the verified fragment (only scalar credentials are
interpolated by the source). -/
def jsTemplate : JsVal → String
  | .null => "null"
  | .bool true => "true"
  | .bool false => "false"
  | .num q => if q.den = 1 then toString q.num else toString q
  | .str s => s
  | .arr _ => ""
  | .obj _ => "[object Object]"

/-- Template-literal stringification of a possibly-undefined value. -/
def jsTemplateO : Option JsVal → String
  | none => "undefined"
  | some v => jsTemplate v

/-- `String.prototype.toLowerCase`, modelled per character. -/
def jsToLower (s : String) : String := String.mk (s.data.map Char.toLower)

/-- One supabase filter in a select/update/delete builder chain. -/
inductive QFilter where
  | eq (col : String) (v : Option JsVal)
  | ilike (col : String) (pat : String)
  | gte (col : String) (v : Option JsVal)
  | lte (col : String) (v : Option JsVal)

/-- A fully built supabase read query. -/
structure DbRead where
  table : String
  sel : String
  filters : List QFilter
  ord : Option (String × Bool)
  rng : Option (Rat × Rat)
  single : Bool

/-- A supabase insert request (`.insert(row)` on a table). -/
structure DbInsert where
  table : String
  row : List (String × Option JsVal)
  single : Bool

/-- A supabase update request. -/
structure DbUpdate where
  table : String
  vals : List (String × Option JsVal)
  filters : List QFilter
  single : Bool

/-- A supabase delete request. -/
structure DbDelete where
  table : String
  filters : List QFilter

/-- One backend or remote request issued by a service operation. -/
inductive Request where
  | read (q : DbRead)
  | insert (i : DbInsert)
  | update (u : DbUpdate)
  | delete (d : DbDelete)
  | authGetUser
  | authSignUp (email password : String) (fullName role : JsVal)
  | authSignIn (email password : String)
  | authSignOut
  | authGetSession
  | authResetPassword (email redirectTo : String)
  | authUpdatePassword (newPassword : String)
  | authOAuth (provider redirectTo : String)
  | httpFetch (url : String) (headers : List (String × String))

/-- Outcome of one awaited backend call: the promise rejected (`thrown`)
or resolved to `{data, error}`, with the error object collapsed to its
`message`. -/
inductive DbOutcome where
  | thrown (msg : String)
  | ok (data : Option JsVal) (error : Option String)

/-- Outcome of one `fetch`: network failure (`thrown`) or a response with
an `ok` flag and a parsed JSON body. -/
inductive HttpOutcome where
  | thrown
  | resp (ok : Bool) (json : JsVal)

/-- The external world of a service operation: clock, browser location,
configuration, supabase responses, and remote HTTP responses.  The
`upstox*` fields model `UpstoxService`, repository code missing from
src/. -/
structure Env where
  now : String
  origin : String
  encryptionKey : String
  db : DbRead → DbOutcome
  eff : Request → DbOutcome
  http : String → List (String × String) → HttpOutcome
  upstoxConnected : Bool
  upstoxImportOk : Bool
  upstoxImportErr : String
  upstoxStatus : JsVal

namespace BrokerCredentialService

/-- The single-row `brokers` lookup used by credential retrieval, update,
status update and deletion (filters by broker id and owning user). -/
def brokerOwnedFilters (brokerId : Option JsVal) (userId : Option JsVal) : List QFilter :=
  [QFilter.eq "id" brokerId, QFilter.eq "user_profile_id" userId]

/-- Embeds `BrokerCredentialService.storeBrokerCredentials`
(brokerCredentialService.js lines 37-71). -/
def storeBrokerCredentials (brokerData : JsVal) (env : Env) : JsVal × List Request :=
  match env.eff .authGetUser with
  | .thrown _ =>
      (.obj [("success", .bool false), ("error", .str "Failed to store broker credentials")],
       [.authGetUser])
  | .ok udata _ =>
    if !(jsTruthy (optGet udata "user")) then
      (.obj [("success", .bool false), ("error", .str "User not authenticated")], [.authGetUser])
    else
      let encryptedCredentials := encrypt env.encryptionKey (.obj [
        ("apiKey", jsOr (brokerData.get "apiKey") .null),
        ("apiSecret", jsOr (brokerData.get "apiSecret") .null),
        ("userId", jsOr (brokerData.get "userId") .null),
        ("password", jsOr (brokerData.get "password") .null),
        ("totpKey", jsOr (brokerData.get "totpKey") .null),
        ("serverAddress", jsOr (brokerData.get "serverAddress") .null)])
      let ins : DbInsert := {
        table := "brokers",
        row := [("name", brokerData.get "name"),
                ("api_key", some (.str encryptedCredentials)),
                ("api_secret", some .null),
                ("account_id", some (jsOr (brokerData.get "accountId") .null)),
                ("status", some (.str "inactive")),
                ("user_profile_id", optGet (optGet udata "user") "id")],
        single := true }
      match env.eff (.insert ins) with
      | .thrown _ =>
          (.obj [("success", .bool false), ("error", .str "Failed to store broker credentials")],
           [.authGetUser, .insert ins])
      | .ok data err =>
        match err with
        | some m =>
            (.obj [("success", .bool false), ("error", .str m)], [.authGetUser, .insert ins])
        | none =>
            (.obj [("success", .bool true), ("data", data.getD .null), ("error", .null)],
             [.authGetUser, .insert ins])

/-- Embeds `BrokerCredentialService.getBrokerCredentials` (lines 76-107). -/
def getBrokerCredentials (brokerId : Option JsVal) (env : Env) : JsVal × List Request :=
  match env.eff .authGetUser with
  | .thrown _ =>
      (.obj [("success", .bool false), ("error", .str "Failed to retrieve credentials")],
       [.authGetUser])
  | .ok udata _ =>
    if !(jsTruthy (optGet udata "user")) then
      (.obj [("success", .bool false), ("error", .str "User not authenticated")], [.authGetUser])
    else
      let q : DbRead := {
        table := "brokers", sel := "*",
        filters := brokerOwnedFilters brokerId (optGet (optGet udata "user") "id"),
        ord := none, rng := none, single := true }
      match env.db q with
      | .thrown _ =>
          (.obj [("success", .bool false), ("error", .str "Failed to retrieve credentials")],
           [.authGetUser, .read q])
      | .ok data err =>
        match err with
        | some m =>
            (.obj [("success", .bool false), ("error", .str m)], [.authGetUser, .read q])
        | none =>
          if !(jsTruthy (optGet data "api_key")) then
            (.obj [("success", .bool false), ("error", .str "No credentials found")],
             [.authGetUser, .read q])
          else
            match (optGet data "api_key").getD .null with
            | .str cipherText =>
              match decrypt env.encryptionKey cipherText with
              | none =>
                  (.obj [("success", .bool false),
                    ("error", .str "Failed to retrieve credentials")],
                   [.authGetUser, .read q])
              | some creds =>
                  (.obj [("success", .bool true),
                    ("data", (data.getD .null).setField "credentials" creds),
                    ("error", .null)],
                   [.authGetUser, .read q])
            | _ =>
                (.obj [("success", .bool false),
                  ("error", .str "Failed to retrieve credentials")],
                 [.authGetUser, .read q])

/-- Embeds `BrokerCredentialService.updateBrokerCredentials`
(lines 112-134). -/
def updateBrokerCredentials (brokerId : Option JsVal) (newCredentials : JsVal) (env : Env) :
    JsVal × List Request :=
  match env.eff .authGetUser with
  | .thrown _ =>
      (.obj [("success", .bool false), ("error", .str "Failed to update credentials")],
       [.authGetUser])
  | .ok udata _ =>
    if !(jsTruthy (optGet udata "user")) then
      (.obj [("success", .bool false), ("error", .str "User not authenticated")], [.authGetUser])
    else
      let upd : DbUpdate := {
        table := "brokers",
        vals := [("api_key", some (.str (encrypt env.encryptionKey newCredentials))),
                 ("updated_at", some (.str env.now))],
        filters := brokerOwnedFilters brokerId (optGet (optGet udata "user") "id"),
        single := true }
      match env.eff (.update upd) with
      | .thrown _ =>
          (.obj [("success", .bool false), ("error", .str "Failed to update credentials")],
           [.authGetUser, .update upd])
      | .ok data err =>
        match err with
        | some m =>
            (.obj [("success", .bool false), ("error", .str m)], [.authGetUser, .update upd])
        | none =>
            (.obj [("success", .bool true), ("data", data.getD .null), ("error", .null)],
             [.authGetUser, .update upd])

/-- Embeds `BrokerCredentialService.testZerodhaConnection` (lines 177-196). -/
def testZerodhaConnection (credentials : Option JsVal) (env : Env) : JsVal × List Request :=
  let headers := [("Authorization", "token " ++ jsTemplateO (optGet credentials "apiKey") ++
      ":" ++ jsTemplateO (optGet credentials "apiSecret")), ("X-Kite-Version", "3")]
  match env.http "https://api.kite.trade/user/profile" headers with
  | .thrown =>
      (.obj [("success", .bool false), ("error", .str "Failed to connect to Zerodha API")],
       [.httpFetch "https://api.kite.trade/user/profile" headers])
  | .resp ok _ =>
    if ok then
      (.obj [("success", .bool true), ("data", .obj [("status", .str "connected")]),
        ("error", .null)],
       [.httpFetch "https://api.kite.trade/user/profile" headers])
    else
      (.obj [("success", .bool false), ("error", .str "Invalid Zerodha credentials")],
       [.httpFetch "https://api.kite.trade/user/profile" headers])

/-- Embeds `BrokerCredentialService.testUpstoxConnection` (lines 201-219). -/
def testUpstoxConnection (credentials : Option JsVal) (env : Env) : JsVal × List Request :=
  let headers := [("Authorization", "Bearer " ++ jsTemplateO (optGet credentials "apiKey")),
    ("Accept", "application/json")]
  match env.http "https://api.upstox.com/v2/user/profile" headers with
  | .thrown =>
      (.obj [("success", .bool false), ("error", .str "Failed to connect to Upstox API")],
       [.httpFetch "https://api.upstox.com/v2/user/profile" headers])
  | .resp ok _ =>
    if ok then
      (.obj [("success", .bool true), ("data", .obj [("status", .str "connected")]),
        ("error", .null)],
       [.httpFetch "https://api.upstox.com/v2/user/profile" headers])
    else
      (.obj [("success", .bool false), ("error", .str "Invalid Upstox credentials")],
       [.httpFetch "https://api.upstox.com/v2/user/profile" headers])

/-- Embeds `BrokerCredentialService.testInteractiveBrokersConnection`
(lines 224-232): an unconditional stub. -/
def testInteractiveBrokersConnection (credentials : Option JsVal) (env : Env) :
    JsVal × List Request :=
  (.obj [("success", .bool true), ("data", .obj [("status", .str "connected")]),
    ("error", .null)], [])

/-- Embeds `BrokerCredentialService.testMT5Connection` (lines 237-245): an
unconditional stub. -/
def testMT5Connection (credentials : Option JsVal) (env : Env) : JsVal × List Request :=
  (.obj [("success", .bool true), ("data", .obj [("status", .str "connected")]),
    ("error", .null)], [])

/-- Embeds `BrokerCredentialService.testAlpacaConnection` (lines 250-267). -/
def testAlpacaConnection (credentials : Option JsVal) (env : Env) : JsVal × List Request :=
  let headers := [("APCA-API-KEY-ID", jsTemplateO (optGet credentials "apiKey")),
    ("APCA-API-SECRET-KEY", jsTemplateO (optGet credentials "apiSecret"))]
  match env.http "https://paper-api.alpaca.markets/v2/account" headers with
  | .thrown =>
      (.obj [("success", .bool false), ("error", .str "Failed to connect to Alpaca API")],
       [.httpFetch "https://paper-api.alpaca.markets/v2/account" headers])
  | .resp ok _ =>
    if ok then
      (.obj [("success", .bool true), ("data", .obj [("status", .str "connected")]),
        ("error", .null)],
       [.httpFetch "https://paper-api.alpaca.markets/v2/account" headers])
    else
      (.obj [("success", .bool false), ("error", .str "Invalid Alpaca credentials")],
       [.httpFetch "https://paper-api.alpaca.markets/v2/account" headers])

/-- Embeds `BrokerCredentialService.testBrokerConnection` (lines 139-172). -/
def testBrokerConnection (brokerId : Option JsVal) (env : Env) : JsVal × List Request :=
  let res := getBrokerCredentials brokerId env
  if !(jsTruthy (res.1.get "success")) then res
  else
    let broker := res.1.get "data"
    let credentials := optGet broker "credentials"
    match optGet broker "name" with
    | some (.str s) =>
      let n := jsToLower s
      if n = "zerodha kite" ∨ n = "zerodha" then
        let sub := testZerodhaConnection credentials env
        (sub.1, res.2 ++ sub.2)
      else if n = "upstox" then
        let sub := testUpstoxConnection credentials env
        (sub.1, res.2 ++ sub.2)
      else if n = "interactive brokers" then
        let sub := testInteractiveBrokersConnection credentials env
        (sub.1, res.2 ++ sub.2)
      else if n = "metatrader 5" ∨ n = "mt5" then
        let sub := testMT5Connection credentials env
        (sub.1, res.2 ++ sub.2)
      else if n = "alpaca markets" ∨ n = "alpaca" then
        let sub := testAlpacaConnection credentials env
        (sub.1, res.2 ++ sub.2)
      else
        (.obj [("success", .bool false), ("error", .str "Unsupported broker type")], res.2)
    | none =>
        (.obj [("success", .bool false), ("error", .str "Unsupported broker type")], res.2)
    | some _ =>
        (.obj [("success", .bool false), ("error", .str "Failed to test connection")], res.2)

/-- Embeds `BrokerCredentialService.updateBrokerStatus` (lines 304-325). -/
def updateBrokerStatus (brokerId : Option JsVal) (status : JsVal) (env : Env) : JsVal × List Request :=
  match env.eff .authGetUser with
  | .thrown _ =>
      (.obj [("success", .bool false), ("error", .str "Failed to update broker status")],
       [.authGetUser])
  | .ok udata _ =>
    if !(jsTruthy (optGet udata "user")) then
      (.obj [("success", .bool false), ("error", .str "User not authenticated")], [.authGetUser])
    else
      let upd : DbUpdate := {
        table := "brokers",
        vals := [("status", some status),
                 ("last_sync_at",
                   some (if JsVal.beq status (.str "active") then .str env.now else .null)),
                 ("updated_at", some (.str env.now))],
        filters := brokerOwnedFilters brokerId (optGet (optGet udata "user") "id"),
        single := true }
      match env.eff (.update upd) with
      | .thrown _ =>
          (.obj [("success", .bool false), ("error", .str "Failed to update broker status")],
           [.authGetUser, .update upd])
      | .ok data err =>
        match err with
        | some m =>
            (.obj [("success", .bool false), ("error", .str m)], [.authGetUser, .update upd])
        | none =>
            (.obj [("success", .bool true), ("data", data.getD .null), ("error", .null)],
             [.authGetUser, .update upd])

/-- Embeds `BrokerCredentialService.deleteBrokerCredentials`
(lines 330-347). -/
def deleteBrokerCredentials (brokerId : Option JsVal) (env : Env) : JsVal × List Request :=
  match env.eff .authGetUser with
  | .thrown _ =>
      (.obj [("success", .bool false), ("error", .str "Failed to delete broker credentials")],
       [.authGetUser])
  | .ok udata _ =>
    if !(jsTruthy (optGet udata "user")) then
      (.obj [("success", .bool false), ("error", .str "User not authenticated")], [.authGetUser])
    else
      let del : DbDelete := {
        table := "brokers",
        filters := brokerOwnedFilters brokerId (optGet (optGet udata "user") "id") }
      match env.eff (.delete del) with
      | .thrown _ =>
          (.obj [("success", .bool false), ("error", .str "Failed to delete broker credentials")],
           [.authGetUser, .delete del])
      | .ok _ err =>
        match err with
        | some m =>
            (.obj [("success", .bool false), ("error", .str m)], [.authGetUser, .delete del])
        | none =>
            (.obj [("success", .bool true), ("error", .null)], [.authGetUser, .delete del])

end BrokerCredentialService

/- ### Numeric and string helpers for the modelled JS fragment -/

/-- Numeric reading of a value on the numeric fragment the services
compute with (`range` bounds, running totals); non-numeric operands are
outside the modelled fragment. -/
def ratOf : JsVal → Rat
  | .num q => q
  | _ => 0

/-- Leading decimal digits of a character stream, and the rest. -/
def takeDigits : List Char → List Char × List Char
  | [] => ([], [])
  | c :: cs =>
    if c.isDigit then
      let (d, r) := takeDigits cs
      (c :: d, r)
    else ([], c :: cs)

/-- Value of a decimal digit string. -/
def digitsVal (ds : List Char) : Nat :=
  ds.foldl (fun a c => a * 10 + (c.toNat - '0'.toNat)) 0

/-- `parseInt` on the fragment trade creation uses: numbers truncate
toward zero, strings parse an optional sign and leading digits; `null`
stands for `NaN`. -/
def jsParseInt (o : Option JsVal) : JsVal :=
  match o with
  | some (.num q) => .num ((q.num / (q.den : Int) : Int) : Rat)
  | some (.str s) =>
    match s.data with
    | '-' :: cs =>
      (match takeDigits cs with
       | ([], _) => .null
       | (ds, _) => .num (-(digitsVal ds : Rat)))
    | cs =>
      (match takeDigits cs with
       | ([], _) => .null
       | (ds, _) => .num (digitsVal ds))
  | _ => .null

/-- `parseFloat` on the same fragment: an optional sign, digits and an
optional decimal part; `null` stands for `NaN`. -/
def jsParseFloat (o : Option JsVal) : JsVal :=
  match o with
  | some (.num q) => .num q
  | some (.str s) =>
    let signAndDigits : Bool × List Char :=
      match s.data with
      | '-' :: cs => (true, cs)
      | cs => (false, cs)
    (match takeDigits signAndDigits.2 with
     | ([], _) => .null
     | (ds, r) =>
       let ipart : Rat := (digitsVal ds : Rat)
       let q : Rat :=
         match r with
         | '.' :: cs2 => ipart + (digitsVal (takeDigits cs2).1 : Rat) /
             ((10 : Rat) ^ (takeDigits cs2).1.length)
         | _ => ipart
       .num (if signAndDigits.1 then -q else q))
  | _ => .null

/-- `x?.toString()`: `undefined` and `null` short-circuit, other values
render as template text. -/
def jsToStr (o : Option JsVal) : Option JsVal :=
  match o with
  | none => none
  | some .null => none
  | some v => some (.str (jsTemplate v))

/-- `String.prototype.includes` for a non-empty needle. -/
def jsIncludes (s needle : String) : Bool :=
  (s.splitOn needle).length > 1

/-- The `reduce` accumulation `sum + (parseFloat(row?.field) || 0)` over a
row list (`getPortfolioSummary`). -/
def sumField (xs : List JsVal) (field : String) : Rat :=
  xs.foldl (fun sum a => sum + ratOf (jsOr (some (jsParseFloat (a.get field))) (.num 0))) 0

namespace UpstoxService

/-- Modelled from the spec: `UpstoxService.isConnected` — `UpstoxService`
is repository code missing from src/ (only its callers are present). -/
def isConnected (env : Env) : Bool := env.upstoxConnected

/-- Modelled from the spec: `UpstoxService.importTradesToDatabase` — the
spec states broker "sync" functions are unimplemented stubs returning
zero imported records; modelled as issuing no requests here. -/
def importTradesToDatabase (env : Env) : JsVal × List Request :=
  (if env.upstoxImportOk then
    .obj [("success", .bool true), ("data", .obj [("importedCount", .num 0)]), ("error", .null)]
  else
    .obj [("success", .bool false), ("data", .null), ("error", .str env.upstoxImportErr)], [])

/-- Modelled from the spec: `UpstoxService.getConnectionStatus` (missing
from src/); the status object it reports is environment data. -/
def getConnectionStatus (env : Env) : JsVal := env.upstoxStatus

end UpstoxService

namespace TradingService

/-- The query built by `getTradingAccounts` (tradingService.js
lines 10-16). -/
def tradingAccountsQuery : DbRead := {
  table := "trading_accounts",
  sel := "*, brokers ( name, status )",
  filters := [QFilter.eq "is_active" (some (.bool true))],
  ord := some ("created_at", false),
  rng := none, single := false }

/-- Embeds `TradingService.getTradingAccounts` (lines 8-26). -/
def getTradingAccounts (env : Env) : JsVal × List Request :=
  match env.db tradingAccountsQuery with
  | .thrown _ =>
      (.obj [("success", .bool false), ("data", .arr []),
        ("error", .str "Failed to fetch trading accounts")], [.read tradingAccountsQuery])
  | .ok data err =>
    match err with
    | some m =>
        (.obj [("success", .bool false), ("data", .arr []), ("error", .str m)],
         [.read tradingAccountsQuery])
    | none =>
        (.obj [("success", .bool true), ("data", jsOr data (.arr [])), ("error", .null)],
         [.read tradingAccountsQuery])

/-- The base `trades` select of `getTrades` (lines 31-39), before any
filter is attached. -/
def tradesBaseQuery : DbRead := {
  table := "trades",
  sel := "*, trading_accounts ( account_name, brokers ( name ) )",
  filters := [], ord := none, rng := none, single := false }

/-- The fully built `trades` query of `getTrades` (lines 41-64),
assembled step by step exactly as the source chains it. -/
def tradesQuery (filters : JsVal) : DbRead :=
  let q1 := if jsTruthy (filters.get "status") then
      { tradesBaseQuery with filters := tradesBaseQuery.filters ++
          [QFilter.eq "status" (filters.get "status")] }
    else tradesBaseQuery
  let q2 := if jsTruthy (filters.get "symbol") then
      { q1 with filters := q1.filters ++
          [QFilter.ilike "symbol" ("%" ++ jsTemplateO (filters.get "symbol") ++ "%")] }
    else q1
  let q3 := if jsTruthy (filters.get "dateFrom") then
      { q2 with filters := q2.filters ++ [QFilter.gte "opened_at" (filters.get "dateFrom")] }
    else q2
  let q4 := if jsTruthy (filters.get "dateTo") then
      { q3 with filters := q3.filters ++ [QFilter.lte "opened_at" (filters.get "dateTo")] }
    else q3
  let limit := ratOf (jsOr (filters.get "limit") (.num 50))
  let offset := ratOf (jsOr (filters.get "offset") (.num 0))
  let q5 := { q4 with rng := some (offset, offset + limit - 1) }
  { q5 with ord := some ("opened_at", false) }

/-- Embeds `TradingService.getTrades` (lines 29-76). -/
def getTrades (filters : JsVal) (env : Env) : JsVal × List Request :=
  let q := tradesQuery filters
  match env.db q with
  | .thrown _ =>
      (.obj [("success", .bool false), ("data", .arr []),
        ("error", .str "Failed to fetch trades")], [.read q])
  | .ok data err =>
    match err with
    | some m =>
        (.obj [("success", .bool false), ("data", .arr []), ("error", .str m)], [.read q])
    | none =>
        (.obj [("success", .bool true), ("data", jsOr data (.arr [])), ("error", .null)],
         [.read q])

/-- The row inserted by `createTrade` (lines 101-114). -/
def createTradeRow (tradeData : JsVal) (userId : String) (env : Env) : DbInsert := {
  table := "trades",
  row := [("instrument", jsToStr (tradeData.get "instrument")),
          ("tradeType", jsToStr (tradeData.get "tradeType")),
          ("quantity", some (jsParseInt (tradeData.get "quantity"))),
          ("entryPrice", some (jsParseFloat (tradeData.get "entryPrice"))),
          ("exitPrice", some (if jsTruthy (tradeData.get "exitPrice") then
              jsParseFloat (tradeData.get "exitPrice") else .null)),
          ("tradeDate", some (jsOr (tradeData.get "tradeDate") (.str env.now))),
          ("strategy", some (jsOr (tradeData.get "strategy") .null)),
          ("notes", some (jsOr (tradeData.get "notes") .null)),
          ("process", some (jsOr (tradeData.get "process") (.str "manual"))),
          ("pnl", some (jsOr (tradeData.get "pnl") (.num 0))),
          ("pnlCurrency", some (jsOr (tradeData.get "pnlCurrency") (.str "INR"))),
          ("userId", some (.str userId))],
  single := true }

/-- Embeds `TradingService.createTrade` (lines 79-126). -/
def createTrade (tradeData : JsVal) (env : Env) : JsVal × List Request :=
  match env.eff .authGetUser with
  | .thrown _ =>
      (.obj [("success", .bool false), ("data", .null),
        ("error", .str "Failed to create trade")], [.authGetUser])
  | .ok udata uerr =>
    match udata with
    | none =>
        (.obj [("success", .bool false), ("data", .null),
          ("error", .str "Failed to create trade")], [.authGetUser])
    | some d =>
      let user := d.get "user"
      if uerr.isSome || !(jsTruthy user) then
        (.obj [("success", .bool false), ("data", .null),
          ("error", .str "User not authenticated")], [.authGetUser])
      else
        let userId : Option JsVal := jsToStr (optGet user "id")
        if !(jsTruthy userId) then
          (.obj [("success", .bool false), ("data", .null),
            ("error", .str "Invalid user ID")], [.authGetUser])
        else
          if !(jsTruthy (tradeData.get "instrument")) ||
             !(jsTruthy (tradeData.get "quantity")) ||
             !(jsTruthy (tradeData.get "entryPrice")) then
            (.obj [("success", .bool false), ("data", .null),
              ("error", .str "Missing required trade data")], [.authGetUser])
          else
            let ins := createTradeRow tradeData (jsTemplateO userId) env
            match env.eff (.insert ins) with
            | .thrown _ =>
                (.obj [("success", .bool false), ("data", .null),
                  ("error", .str "Failed to create trade")], [.authGetUser, .insert ins])
            | .ok data err =>
              match err with
              | some m =>
                  (.obj [("success", .bool false), ("data", .null), ("error", .str m)],
                   [.authGetUser, .insert ins])
              | none =>
                  (.obj [("success", .bool true), ("data", data.getD .null), ("error", .null)],
                   [.authGetUser, .insert ins])

/-- Embeds `TradingService.updateTrade` (lines 129-144). -/
def updateTrade (tradeId updates : JsVal) (env : Env) : JsVal × List Request :=
  let upd : DbUpdate := {
    table := "trades",
    vals := (match updates with
             | .obj fs => fs.map (fun kv => (kv.1, some kv.2))
             | _ => []) ++ [("updated_at", some (.str env.now))],
    filters := [QFilter.eq "id" (some tradeId)],
    single := true }
  match env.eff (.update upd) with
  | .thrown _ =>
      (.obj [("success", .bool false), ("data", .null),
        ("error", .str "Failed to update trade")], [.update upd])
  | .ok data err =>
    match err with
    | some m =>
        (.obj [("success", .bool false), ("data", .null), ("error", .str m)], [.update upd])
    | none =>
        (.obj [("success", .bool true), ("data", data.getD .null), ("error", .null)],
         [.update upd])

/-- Embeds `TradingService.closeTrade` (lines 147-164); `closedAt` is the
optional argument, defaulting to the current time. -/
def closeTrade (tradeId exitPrice : JsVal) (closedAt : Option String) (env : Env) :
    JsVal × List Request :=
  let upd : DbUpdate := {
    table := "trades",
    vals := [("exit_price", some exitPrice),
             ("status", some (.str "closed")),
             ("closed_at", some (.str (closedAt.getD env.now))),
             ("updated_at", some (.str env.now))],
    filters := [QFilter.eq "id" (some tradeId)],
    single := true }
  match env.eff (.update upd) with
  | .thrown _ =>
      (.obj [("success", .bool false), ("data", .null),
        ("error", .str "Failed to close trade")], [.update upd])
  | .ok data err =>
    match err with
    | some m =>
        (.obj [("success", .bool false), ("data", .null), ("error", .str m)], [.update upd])
    | none =>
        (.obj [("success", .bool true), ("data", data.getD .null), ("error", .null)],
         [.update upd])

/-- Embeds `TradingService.deleteTrade` (lines 166-179); note the source
returns only `success` and `error`, with no `data` field. -/
def deleteTrade (tradeId : JsVal) (env : Env) : JsVal × List Request :=
  let del : DbDelete := { table := "trades", filters := [QFilter.eq "id" (some tradeId)] }
  match env.eff (.delete del) with
  | .thrown _ =>
      (.obj [("success", .bool false), ("error", .str "Failed to delete trade")], [.delete del])
  | .ok _ err =>
    match err with
    | some m => (.obj [("success", .bool false), ("error", .str m)], [.delete del])
    | none => (.obj [("success", .bool true), ("error", .null)], [.delete del])

end TradingService

namespace TradingService

/-- The `portfolios` query of `getPortfolioSummary` (line 184). -/
def portfoliosQuery : DbRead := {
  table := "portfolios", sel := "*", filters := [],
  ord := some ("created_at", false), rng := none, single := false }

/-- The balance query of `getPortfolioSummary` (line 191). -/
def accountBalancesQuery : DbRead := {
  table := "trading_accounts", sel := "balance, currency",
  filters := [QFilter.eq "is_active" (some (.bool true))],
  ord := none, rng := none, single := false }

/-- Embeds `TradingService.getPortfolioSummary` (lines 182-212): after
both reads succeed it sums account balances and portfolio `total_pnl`
client-side and derives a percentage. -/
def getPortfolioSummary (env : Env) : JsVal × List Request :=
  match env.db portfoliosQuery with
  | .thrown _ =>
      (.obj [("success", .bool false), ("data", .null),
        ("error", .str "Failed to fetch portfolio summary")], [.read portfoliosQuery])
  | .ok pdata perr =>
    match perr with
    | some m =>
        (.obj [("success", .bool false), ("data", .null), ("error", .str m)],
         [.read portfoliosQuery])
    | none =>
      match env.db accountBalancesQuery with
      | .thrown _ =>
          (.obj [("success", .bool false), ("data", .null),
            ("error", .str "Failed to fetch portfolio summary")],
           [.read portfoliosQuery, .read accountBalancesQuery])
      | .ok adata aerr =>
        match aerr with
        | some m =>
            (.obj [("success", .bool false), ("data", .null), ("error", .str m)],
             [.read portfoliosQuery, .read accountBalancesQuery])
        | none =>
          let totalBalance : Rat :=
            match adata with
            | some (.arr accounts) => sumField accounts "balance"
            | _ => 0
          let totalPnL : Rat :=
            match pdata with
            | some (.arr portfolios) => sumField portfolios "total_pnl"
            | _ => 0
          let summary : JsVal := .obj [
            ("portfolios", jsOr pdata (.arr [])),
            ("totalBalance", .num totalBalance),
            ("totalPnL", .num totalPnL),
            ("totalPnLPercentage",
              .num (if totalBalance > 0 then totalPnL / totalBalance * 100 else 0))]
          (.obj [("success", .bool true), ("data", summary), ("error", .null)],
           [.read portfoliosQuery, .read accountBalancesQuery])

/-- The base `analytics_data` select of `getAnalyticsData` (line 217). -/
def analyticsBaseQuery : DbRead := {
  table := "analytics_data", sel := "*", filters := [],
  ord := none, rng := none, single := false }

/-- The fully built analytics query (lines 219-228), assembled step by
step exactly as the source chains it. -/
def analyticsQuery (filters : JsVal) : DbRead :=
  let q1 := if jsTruthy (filters.get "dateFrom") then
      { analyticsBaseQuery with filters := analyticsBaseQuery.filters ++
          [QFilter.gte "date" (filters.get "dateFrom")] }
    else analyticsBaseQuery
  let q2 := if jsTruthy (filters.get "dateTo") then
      { q1 with filters := q1.filters ++ [QFilter.lte "date" (filters.get "dateTo")] }
    else q1
  { q2 with ord := some ("date", true) }

/-- Embeds `TradingService.getAnalyticsData` (lines 215-240). -/
def getAnalyticsData (filters : JsVal) (env : Env) : JsVal × List Request :=
  let q := analyticsQuery filters
  match env.db q with
  | .thrown _ =>
      (.obj [("success", .bool false), ("data", .arr []),
        ("error", .str "Failed to fetch analytics data")], [.read q])
  | .ok data err =>
    match err with
    | some m =>
        (.obj [("success", .bool false), ("data", .arr []), ("error", .str m)], [.read q])
    | none =>
        (.obj [("success", .bool true), ("data", jsOr data (.arr [])), ("error", .null)],
         [.read q])

/-- The `brokers` query of `getBrokers` (line 245). -/
def brokersQuery : DbRead := {
  table := "brokers", sel := "*", filters := [],
  ord := some ("created_at", false), rng := none, single := false }

/-- Embeds `TradingService.getBrokers` (lines 243-255). -/
def getBrokers (env : Env) : JsVal × List Request :=
  match env.db brokersQuery with
  | .thrown _ =>
      (.obj [("success", .bool false), ("data", .arr []),
        ("error", .str "Failed to fetch brokers")], [.read brokersQuery])
  | .ok data err =>
    match err with
    | some m =>
        (.obj [("success", .bool false), ("data", .arr []), ("error", .str m)],
         [.read brokersQuery])
    | none =>
        (.obj [("success", .bool true), ("data", jsOr data (.arr [])), ("error", .null)],
         [.read brokersQuery])

/-- Embeds `TradingService.createTradingAccountFromBroker`
(lines 295-320). -/
def createTradingAccountFromBroker (brokerId : Option JsVal) (brokerData : JsVal)
    (env : Env) : JsVal × List Request :=
  match env.eff .authGetUser with
  | .thrown _ =>
      (.obj [("success", .bool false),
        ("error", .str "Failed to create trading account")], [.authGetUser])
  | .ok udata _ =>
    if !(jsTruthy (optGet udata "user")) then
      (.obj [("success", .bool false), ("error", .str "User not authenticated")], [.authGetUser])
    else
      let ins : DbInsert := {
        table := "trading_accounts",
        row := [("account_name", some (.str (jsTemplateO (brokerData.get "name") ++ " Account"))),
                ("account_number", some (jsOr (brokerData.get "accountId") .null)),
                ("broker_id", brokerId),
                ("balance", some (.num 0)),
                ("currency", some (.str "USD")),
                ("is_active", some (.bool true)),
                ("user_profile_id", optGet (optGet udata "user") "id")],
        single := true }
      match env.eff (.insert ins) with
      | .thrown _ =>
          (.obj [("success", .bool false),
            ("error", .str "Failed to create trading account")], [.authGetUser, .insert ins])
      | .ok data err =>
        match err with
        | some m =>
            (.obj [("success", .bool false), ("error", .str m)], [.authGetUser, .insert ins])
        | none =>
            (.obj [("success", .bool true), ("data", data.getD .null), ("error", .null)],
             [.authGetUser, .insert ins])

/-- Embeds `TradingService.addBroker` (lines 258-292). -/
def addBroker (brokerData : JsVal) (env : Env) : JsVal × List Request :=
  let store := BrokerCredentialService.storeBrokerCredentials brokerData env
  if !(jsTruthy (store.1.get "success")) then store
  else
    let rid := optGet (store.1.get "data") "id"
    let test := BrokerCredentialService.testBrokerConnection rid env
    if jsTruthy (test.1.get "success") then
      let updStatus := BrokerCredentialService.updateBrokerStatus rid (.str "active") env
      let acct := createTradingAccountFromBroker rid brokerData env
      (.obj [("success", .bool true),
             ("data", ((store.1.get "data").getD .null).setField "connectionTest" test.1),
             ("error", .null)],
       store.2 ++ test.2 ++ updStatus.2 ++ acct.2)
    else
      let updStatus := BrokerCredentialService.updateBrokerStatus rid (.str "error") env
      (.obj [("success", .bool true),
             ("data", ((store.1.get "data").getD .null).setField "connectionTest" test.1),
             ("error", .null)],
       store.2 ++ test.2 ++ updStatus.2)

/-- Embeds `TradingService.syncZerodhaData` (lines 403-435). -/
def syncZerodhaData (brokerId : Option JsVal) (env : Env) : JsVal × List Request :=
  let cred := BrokerCredentialService.getBrokerCredentials brokerId env
  if !(jsTruthy (cred.1.get "success")) then cred
  else
    let credentials := optGet (cred.1.get "data") "credentials"
    let headers := [("Authorization", "token " ++ jsTemplateO (optGet credentials "apiKey") ++
        ":" ++ jsTemplateO (optGet credentials "apiSecret")), ("X-Kite-Version", "3")]
    match env.http "https://api.kite.trade/portfolio/positions" headers with
    | .thrown =>
        (.obj [("success", .bool false), ("data", .null),
          ("error", .str "Failed to sync Zerodha data")],
         cred.2 ++ [.httpFetch "https://api.kite.trade/portfolio/positions" headers])
    | .resp ok _ =>
      if !ok then
        (.obj [("success", .bool false), ("error", .str "Failed to fetch Zerodha data")],
         cred.2 ++ [.httpFetch "https://api.kite.trade/portfolio/positions" headers])
      else
        (.obj [("success", .bool true), ("data", .obj [("importedCount", .num 0)]),
          ("error", .null)],
         cred.2 ++ [.httpFetch "https://api.kite.trade/portfolio/positions" headers])

/-- Embeds `TradingService.syncInteractiveBrokersData` (lines 438-454). -/
def syncInteractiveBrokersData (brokerId : Option JsVal) (env : Env) : JsVal × List Request :=
  let cred := BrokerCredentialService.getBrokerCredentials brokerId env
  if !(jsTruthy (cred.1.get "success")) then cred
  else
    (.obj [("success", .bool true), ("data", .obj [("importedCount", .num 0)]),
      ("error", .null)], cred.2)

/-- Embeds `TradingService.syncAlpacaData` (lines 457-489). -/
def syncAlpacaData (brokerId : Option JsVal) (env : Env) : JsVal × List Request :=
  let cred := BrokerCredentialService.getBrokerCredentials brokerId env
  if !(jsTruthy (cred.1.get "success")) then cred
  else
    let credentials := optGet (cred.1.get "data") "credentials"
    let headers := [("APCA-API-KEY-ID", jsTemplateO (optGet credentials "apiKey")),
      ("APCA-API-SECRET-KEY", jsTemplateO (optGet credentials "apiSecret"))]
    match env.http "https://paper-api.alpaca.markets/v2/positions" headers with
    | .thrown =>
        (.obj [("success", .bool false), ("data", .null),
          ("error", .str "Failed to sync Alpaca data")],
         cred.2 ++ [.httpFetch "https://paper-api.alpaca.markets/v2/positions" headers])
    | .resp ok _ =>
      if !ok then
        (.obj [("success", .bool false), ("error", .str "Failed to fetch Alpaca data")],
         cred.2 ++ [.httpFetch "https://paper-api.alpaca.markets/v2/positions" headers])
      else
        (.obj [("success", .bool true), ("data", .obj [("importedCount", .num 0)]),
          ("error", .null)],
         cred.2 ++ [.httpFetch "https://paper-api.alpaca.markets/v2/positions" headers])

/-- The `results` accumulator of `syncFromBrokers` (lines 325-332). -/
structure SyncState where
  upstox : JsVal
  zerodha : JsVal
  interactive : JsVal
  alpaca : JsVal
  totalImported : Rat
  errors : List String

/-- The initial per-broker result entries of `syncFromBrokers`. -/
def initSyncState : SyncState := {
  upstox := .obj [("success", .bool false), ("data", .null), ("error", .null)],
  zerodha := .obj [("success", .bool false), ("data", .null), ("error", .null)],
  interactive := .obj [("success", .bool false), ("data", .null), ("error", .null)],
  alpaca := .obj [("success", .bool false), ("data", .null), ("error", .null)],
  totalImported := 0,
  errors := [] }

/-- Bookkeeping after one broker's `syncResult` (lines 372-376):
accumulate `importedCount` on success, record `name: error` otherwise. -/
def recordSyncResult (broker : JsVal) (r : JsVal) (st : SyncState) : SyncState :=
  if jsTruthy (r.get "success") then
    let add := ratOf (jsOr (optGet (r.get "data") "importedCount") (.num 0))
    { st with totalImported := st.totalImported + add }
  else
    let e := jsTemplateO (broker.get "name") ++ ": " ++ jsTemplateO (r.get "error")
    { st with errors := st.errors ++ [e] }

/-- One iteration of the broker loop of `syncFromBrokers` (lines 343-380):
dispatch on the lowercased broker name, store the per-broker result, and
do the bookkeeping of `recordSyncResult`.  A non-string, non-null `name`
makes `toLowerCase()` throw; the inner catch records the thrown message. -/
def syncBrokerStep (env : Env) (acc : SyncState × List Request) (broker : JsVal) :
    SyncState × List Request :=
  let st := acc.1
  let tr := acc.2
  match broker.get "name" with
  | some (.str s) =>
    let n := jsToLower s
    if n = "upstox" then
      if UpstoxService.isConnected env then
        let r := UpstoxService.importTradesToDatabase env
        ({ recordSyncResult broker r.1 st with upstox := r.1 }, tr ++ r.2)
      else
        let r : JsVal := .obj [("success", .bool false), ("data", .null),
          ("error", .str "Unsupported broker")]
        ({ recordSyncResult broker r st with upstox := r }, tr)
    else if n = "zerodha kite" ∨ n = "zerodha" then
      let r := syncZerodhaData (broker.get "id") env
      ({ recordSyncResult broker r.1 st with zerodha := r.1 }, tr ++ r.2)
    else if n = "interactive brokers" then
      let r := syncInteractiveBrokersData (broker.get "id") env
      ({ recordSyncResult broker r.1 st with interactive := r.1 }, tr ++ r.2)
    else if n = "alpaca markets" ∨ n = "alpaca" then
      let r := syncAlpacaData (broker.get "id") env
      ({ recordSyncResult broker r.1 st with alpaca := r.1 }, tr ++ r.2)
    else
      let r : JsVal := .obj [("success", .bool false), ("data", .null),
        ("error", .str "Unsupported broker")]
      (recordSyncResult broker r st, tr)
  | none =>
      let r : JsVal := .obj [("success", .bool false), ("data", .null),
        ("error", .str "Unsupported broker")]
      (recordSyncResult broker r st, tr)
  | some .null =>
      let r : JsVal := .obj [("success", .bool false), ("data", .null),
        ("error", .str "Unsupported broker")]
      (recordSyncResult broker r st, tr)
  | some _ =>
      let e := jsTemplateO (broker.get "name") ++ ": " ++
        "broker?.name?.toLowerCase is not a function"
      ({ st with errors := st.errors ++ [e] }, tr)

/-- The rows of a `getBrokers` payload that are active
(`broker?.status === 'active'`, line 340). -/
def activeBrokersOf (rows : List JsVal) : List JsVal :=
  rows.filter (fun b =>
    match b.get "status" with
    | some v => JsVal.beq v (.str "active")
    | none => false)

/-- The final timestamp update of `syncFromBrokers` (line 383). -/
def lastSyncUpdate (env : Env) : DbUpdate := {
  table := "brokers",
  vals := [("last_sync_at", some (.str env.now))],
  filters := [QFilter.eq "status" (some (.str "active"))],
  single := false }

/-- Embeds `TradingService.syncFromBrokers` (lines 323-400). -/
def syncFromBrokers (env : Env) : JsVal × List Request :=
  let gb := getBrokers env
  if !(jsTruthy (gb.1.get "success")) then
    (.obj [("success", .bool false), ("data", .null), ("error", .str "Failed to get brokers")],
     gb.2)
  else
    match (gb.1.get "data").getD .null with
    | .arr rows =>
      let loop := (activeBrokersOf rows).foldl (syncBrokerStep env) (initSyncState, [])
      let st := loop.1
      match env.eff (.update (lastSyncUpdate env)) with
      | .thrown _ =>
          (.obj [("success", .bool false), ("data", .null),
            ("error", .str "Failed to sync broker data")],
           gb.2 ++ loop.2 ++ [.update (lastSyncUpdate env)])
      | .ok _ _ =>
        let brokerResults : JsVal := .obj [
          ("upstox", st.upstox), ("zerodha", st.zerodha),
          ("interactive", st.interactive), ("alpaca", st.alpaca),
          ("totalImported", .num st.totalImported),
          ("errors", .arr (st.errors.map JsVal.str))]
        (.obj [("success", .bool (decide (0 < st.totalImported) || st.errors.isEmpty)),
               ("data", .obj [("totalImported", .num st.totalImported),
                              ("brokerResults", brokerResults)]),
               ("error", if st.errors.isEmpty then .null
                 else .str (String.intercalate "; " st.errors))],
         gb.2 ++ loop.2 ++ [.update (lastSyncUpdate env)])
    | _ =>
        -- a non-array `data` payload makes `?.filter` return `undefined`
        -- and the `for..of` throw, reaching the outer catch
        (.obj [("success", .bool false), ("data", .null),
          ("error", .str "Failed to sync broker data")], gb.2)

end TradingService

namespace TradingService

/-- One `statuses[...]` entry built in the broker loop of
`getBrokerStatus` (lines 512-518). -/
def brokerStatusEntry (broker : JsVal) (testResult : JsVal) : JsVal :=
  .obj [("name", (broker.get "name").getD .null),
        ("connected", (testResult.get "success").getD .null),
        ("lastSync", (broker.get "last_sync_at").getD .null),
        ("status", (broker.get "status").getD .null),
        ("error", (testResult.get "error").getD .null)]

/-- One iteration of the broker loop of `getBrokerStatus`
(lines 509-519): the connection test runs first; a broker name without
`toLowerCase` then throws and exits the loop (`none` state). -/
def brokerStatusStep (env : Env) (acc : Option JsVal × List Request) (broker : JsVal) :
    Option JsVal × List Request :=
  match acc.1 with
  | none => acc
  | some statuses =>
    let test := BrokerCredentialService.testBrokerConnection (broker.get "id") env
    match broker.get "name" with
    | some (.str s) =>
      let key := String.mk ((jsToLower s).data.map (fun c => if c = ' ' then '_' else c))
      (some (statuses.setField key (brokerStatusEntry broker test.1)), acc.2 ++ test.2)
    | none =>
      (some (statuses.setField "undefined" (brokerStatusEntry broker test.1)), acc.2 ++ test.2)
    | some .null =>
      (some (statuses.setField "undefined" (brokerStatusEntry broker test.1)), acc.2 ++ test.2)
    | some _ => (none, acc.2 ++ test.2)

/-- Embeds `TradingService.getBrokerStatus` (lines 492-526). -/
def getBrokerStatus (env : Env) : JsVal × List Request :=
  let upstoxStatus := UpstoxService.getConnectionStatus env
  let statuses0 : JsVal := (JsVal.obj []).setField "upstox" (.obj [
    ("name", .str "Upstox"),
    ("connected", (upstoxStatus.get "connected").getD .null),
    ("lastSync", (upstoxStatus.get "lastSync").getD .null),
    ("status", if jsTruthy (upstoxStatus.get "connected") then .str "active"
      else .str "inactive"),
    ("error", (upstoxStatus.get "error").getD .null)])
  let gb := getBrokers env
  if jsTruthy (gb.1.get "success") then
    match (gb.1.get "data").getD .null with
    | .arr rows =>
      let loop := rows.foldl (brokerStatusStep env) (some statuses0, gb.2)
      match loop.1 with
      | some statuses =>
          (.obj [("success", .bool true), ("data", statuses), ("error", .null)], loop.2)
      | none =>
          (.obj [("success", .bool false), ("data", .null),
            ("error", .str "Failed to get broker status")], loop.2)
    | _ =>
        (.obj [("success", .bool false), ("data", .null),
          ("error", .str "Failed to get broker status")], gb.2)
  else
    (.obj [("success", .bool true), ("data", statuses0), ("error", .null)], gb.2)

/-- The `strategies` query of `getStrategies` (line 531). -/
def strategiesQuery : DbRead := {
  table := "strategies", sel := "*",
  filters := [QFilter.eq "is_active" (some (.bool true))],
  ord := some ("created_at", false), rng := none, single := false }

/-- Embeds `TradingService.getStrategies` (lines 529-541). -/
def getStrategies (env : Env) : JsVal × List Request :=
  match env.db strategiesQuery with
  | .thrown _ =>
      (.obj [("success", .bool false), ("data", .arr []),
        ("error", .str "Failed to fetch strategies")], [.read strategiesQuery])
  | .ok data err =>
    match err with
    | some m =>
        (.obj [("success", .bool false), ("data", .arr []), ("error", .str m)],
         [.read strategiesQuery])
    | none =>
        (.obj [("success", .bool true), ("data", jsOr data (.arr [])), ("error", .null)],
         [.read strategiesQuery])

end TradingService

namespace AuthService

/-- The catch handler shared by `signUp` and `signIn`: connection
failures get the supabase-paused hint, everything else the generic
message (authService lines 24-32 and 49-57). -/
def connectErrResult (msg : String) : JsVal :=
  if jsIncludes msg "Failed to fetch" || jsIncludes msg "AuthRetryableFetchError" then
    .obj [("success", .bool false),
      ("error", .str "Cannot connect to authentication service. Your Supabase project may be paused or inactive. Please check your Supabase dashboard and resume your project if needed.")]
  else
    .obj [("success", .bool false), ("error", .str "Something went wrong. Please try again.")]

/-- Embeds `AuthService.signUp` (authService lines 6-34). -/
def signUp (email password : String) (userData : JsVal) (env : Env) : JsVal × List Request :=
  let req := Request.authSignUp email password
    (jsOr (userData.get "fullName") (.str ""))
    (jsOr (userData.get "role") (.str "trader"))
  match env.eff req with
  | .thrown msg => (connectErrResult msg, [req])
  | .ok data err =>
    match err with
    | some m =>
        (.obj [("success", .bool false),
          ("error", .str (if m ≠ "" then m else "Sign up failed"))], [req])
    | none =>
        (.obj [("success", .bool true), ("data", data.getD .null), ("error", .null)], [req])

/-- Embeds `AuthService.signIn` (lines 37-59). -/
def signIn (email password : String) (env : Env) : JsVal × List Request :=
  let req := Request.authSignIn email password
  match env.eff req with
  | .thrown msg => (connectErrResult msg, [req])
  | .ok data err =>
    match err with
    | some m =>
        (.obj [("success", .bool false),
          ("error", .str (if m ≠ "" then m else "Sign in failed"))], [req])
    | none =>
        (.obj [("success", .bool true), ("data", data.getD .null), ("error", .null)], [req])

/-- Embeds `AuthService.signOut` (lines 62-72); the source returns only
`success` and `error`. -/
def signOut (env : Env) : JsVal × List Request :=
  match env.eff .authSignOut with
  | .thrown _ =>
      (.obj [("success", .bool false),
        ("error", .str "Something went wrong. Please try again.")], [.authSignOut])
  | .ok _ err =>
    match err with
    | some m =>
        (.obj [("success", .bool false),
          ("error", .str (if m ≠ "" then m else "Sign out failed"))], [.authSignOut])
    | none => (.obj [("success", .bool true), ("error", .null)], [.authSignOut])

/-- Embeds `AuthService.getCurrentSession` (lines 75-85); the payload
field is named `session`, not `data`. -/
def getCurrentSession (env : Env) : JsVal × List Request :=
  match env.eff .authGetSession with
  | .thrown _ =>
      (.obj [("success", .bool false), ("session", .null),
        ("error", .str "Failed to get session")], [.authGetSession])
  | .ok data err =>
    match data with
    | none =>
        -- destructuring `{ session }` from an absent `data` throws
        (.obj [("success", .bool false), ("session", .null),
          ("error", .str "Failed to get session")], [.authGetSession])
    | some d =>
      match err with
      | some m =>
          (.obj [("success", .bool false), ("session", .null), ("error", .str m)],
           [.authGetSession])
      | none =>
          (.obj [("success", .bool true), ("session", (d.get "session").getD .null),
            ("error", .null)], [.authGetSession])

/-- The `user_profiles` row lookup of `getCurrentUserProfile` (line 95). -/
def userProfileQuery (userId : Option JsVal) : DbRead := {
  table := "user_profiles", sel := "*",
  filters := [QFilter.eq "id" userId],
  ord := none, rng := none, single := true }

/-- Embeds `AuthService.getCurrentUserProfile` (lines 88-105); the
payload field is named `profile`, not `data`. -/
def getCurrentUserProfile (env : Env) : JsVal × List Request :=
  match env.eff .authGetUser with
  | .thrown _ =>
      (.obj [("success", .bool false), ("profile", .null),
        ("error", .str "Failed to fetch profile")], [.authGetUser])
  | .ok udata uerr =>
    match udata with
    | none =>
        (.obj [("success", .bool false), ("profile", .null),
          ("error", .str "Failed to fetch profile")], [.authGetUser])
    | some d =>
      let user := d.get "user"
      if uerr.isSome || !(jsTruthy user) then
        (.obj [("success", .bool false), ("profile", .null),
          ("error", .str "User not authenticated")], [.authGetUser])
      else
        let q := userProfileQuery (optGet user "id")
        match env.db q with
        | .thrown _ =>
            (.obj [("success", .bool false), ("profile", .null),
              ("error", .str "Failed to fetch profile")], [.authGetUser, .read q])
        | .ok pdata perr =>
          match perr with
          | some m =>
              (.obj [("success", .bool false), ("profile", .null), ("error", .str m)],
               [.authGetUser, .read q])
          | none =>
              (.obj [("success", .bool true), ("profile", pdata.getD .null), ("error", .null)],
               [.authGetUser, .read q])

/-- Embeds `AuthService.updateProfile` (lines 108-128). -/
def updateProfile (updates : JsVal) (env : Env) : JsVal × List Request :=
  match env.eff .authGetUser with
  | .thrown _ =>
      (.obj [("success", .bool false),
        ("error", .str "Something went wrong. Please try again.")], [.authGetUser])
  | .ok udata uerr =>
    match udata with
    | none =>
        (.obj [("success", .bool false),
          ("error", .str "Something went wrong. Please try again.")], [.authGetUser])
    | some d =>
      let user := d.get "user"
      if uerr.isSome || !(jsTruthy user) then
        (.obj [("success", .bool false), ("error", .str "User not authenticated")],
         [.authGetUser])
      else
        let upd : DbUpdate := {
          table := "user_profiles",
          vals := (match updates with
                   | .obj fs => fs.map (fun kv => (kv.1, some kv.2))
                   | _ => []) ++ [("updated_at", some (.str env.now))],
          filters := [QFilter.eq "id" (optGet user "id")],
          single := true }
        match env.eff (.update upd) with
        | .thrown _ =>
            (.obj [("success", .bool false),
              ("error", .str "Something went wrong. Please try again.")],
             [.authGetUser, .update upd])
        | .ok data err =>
          match err with
          | some m =>
              (.obj [("success", .bool false),
                ("error", .str (if m ≠ "" then m else "Profile update failed"))],
               [.authGetUser, .update upd])
          | none =>
              (.obj [("success", .bool true), ("data", data.getD .null), ("error", .null)],
               [.authGetUser, .update upd])

/-- Embeds `AuthService.resetPassword` (lines 131-145); the source
returns only `success` and `error`. -/
def resetPassword (email : String) (env : Env) : JsVal × List Request :=
  let req := Request.authResetPassword email (env.origin ++ "/reset-password")
  match env.eff req with
  | .thrown _ =>
      (.obj [("success", .bool false),
        ("error", .str "Something went wrong. Please try again.")], [req])
  | .ok _ err =>
    match err with
    | some m =>
        (.obj [("success", .bool false),
          ("error", .str (if m ≠ "" then m else "Password reset failed"))], [req])
    | none => (.obj [("success", .bool true), ("error", .null)], [req])

/-- Embeds `AuthService.updatePassword` (lines 148-162); the source
returns only `success` and `error`. -/
def updatePassword (newPassword : String) (env : Env) : JsVal × List Request :=
  let req := Request.authUpdatePassword newPassword
  match env.eff req with
  | .thrown _ =>
      (.obj [("success", .bool false),
        ("error", .str "Something went wrong. Please try again.")], [req])
  | .ok _ err =>
    match err with
    | some m =>
        (.obj [("success", .bool false),
          ("error", .str (if m ≠ "" then m else "Password update failed"))], [req])
    | none => (.obj [("success", .bool true), ("error", .null)], [req])

/-- Embeds `AuthService.signInWithProvider` (lines 165-182). -/
def signInWithProvider (provider : String) (env : Env) : JsVal × List Request :=
  let req := Request.authOAuth provider (env.origin ++ "/dashboard")
  match env.eff req with
  | .thrown _ =>
      (.obj [("success", .bool false),
        ("error", .str "Something went wrong. Please try again.")], [req])
  | .ok data err =>
    match err with
    | some m =>
        (.obj [("success", .bool false),
          ("error", .str (if m ≠ "" then m else "OAuth sign in failed"))], [req])
    | none =>
        (.obj [("success", .bool true), ("data", data.getD .null), ("error", .null)], [req])

end AuthService

/- ### Shared concrete environments for witnesses and counterexamples -/

/-- A backend in which every read resolves with an empty row set. -/
def dbEmpty : DbRead → DbOutcome := fun _ => .ok (some (.arr [])) none

/-- A backend in which every effect resolves without data or error. -/
def effOk : Request → DbOutcome := fun _ => .ok none none

/-- A remote side that accepts every request with an empty body. -/
def httpOk : String → List (String × String) → HttpOutcome := fun _ _ => .resp true .null

/-- The base concrete environment. -/
def baseEnv : Env := {
  now := "2025-01-01T00:00:00.000Z",
  origin := "http://localhost",
  encryptionKey := "default-encryption-key-change-me",
  db := dbEmpty, eff := effOk, http := httpOk,
  upstoxConnected := false, upstoxImportOk := true, upstoxImportErr := "",
  upstoxStatus := .obj [] }

/- ### C5: getTrades forwards its filters unchanged -/

/-- C5: `getTrades` issues exactly one read, on the `trades` table, whose
filter list contains the status equality, symbol substring, and
`opened_at` bound filters exactly when the corresponding field is set
(JS-truthy), in that order and nothing else; it requests rows
`[offset, offset + limit - 1]` with `limit` defaulting to 50 and `offset`
to 0, ordered by `opened_at` descending. -/
theorem C5_getTrades_forwards_filters (filters : JsVal) (env : Env) :
    (TradingService.getTrades filters env).2 =
      [Request.read (TradingService.tradesQuery filters)] ∧
    TradingService.tradesQuery filters = {
      table := "trades",
      sel := "*, trading_accounts ( account_name, brokers ( name ) )",
      filters :=
        (if jsTruthy (filters.get "status") then
          [QFilter.eq "status" (filters.get "status")] else []) ++
        (if jsTruthy (filters.get "symbol") then
          [QFilter.ilike "symbol" ("%" ++ jsTemplateO (filters.get "symbol") ++ "%")] else []) ++
        (if jsTruthy (filters.get "dateFrom") then
          [QFilter.gte "opened_at" (filters.get "dateFrom")] else []) ++
        (if jsTruthy (filters.get "dateTo") then
          [QFilter.lte "opened_at" (filters.get "dateTo")] else []),
      ord := some ("opened_at", false),
      rng := some (ratOf (jsOr (filters.get "offset") (.num 0)),
        ratOf (jsOr (filters.get "offset") (.num 0)) +
          ratOf (jsOr (filters.get "limit") (.num 50)) - 1),
      single := false } := by
  constructor
  · rcases h : env.db (TradingService.tradesQuery filters) with _ | ⟨data, err⟩
    · simp [TradingService.getTrades, h]
    · rcases err with _ | m <;> simp [TradingService.getTrades, h]
  · unfold TradingService.tradesQuery TradingService.tradesBaseQuery
    split_ifs <;> rfl

/- ### C6: analytics reads are direct and untransformed -/

/-- C6: `getAnalyticsData` issues exactly one read of `analytics_data`
whose only filters are the `date` lower/upper bounds (each exactly when
set), ordered by `date` ascending; on success the returned `data` is the
backend row list itself, with no per-row transformation. -/
theorem C6_analytics_direct_read (filters : JsVal) (env : Env) :
    (TradingService.getAnalyticsData filters env).2 =
      [Request.read (TradingService.analyticsQuery filters)] ∧
    TradingService.analyticsQuery filters = {
      table := "analytics_data",
      sel := "*",
      filters :=
        (if jsTruthy (filters.get "dateFrom") then
          [QFilter.gte "date" (filters.get "dateFrom")] else []) ++
        (if jsTruthy (filters.get "dateTo") then
          [QFilter.lte "date" (filters.get "dateTo")] else []),
      ord := some ("date", true),
      rng := none,
      single := false } ∧
    (∀ rows, env.db (TradingService.analyticsQuery filters) = .ok (some (.arr rows)) none →
      (TradingService.getAnalyticsData filters env).1 =
        .obj [("success", .bool true), ("data", .arr rows), ("error", .null)]) := by
  refine ⟨?_, ?_, ?_⟩
  · rcases h : env.db (TradingService.analyticsQuery filters) with _ | ⟨data, err⟩
    · simp [TradingService.getAnalyticsData, h]
    · rcases err with _ | m <;> simp [TradingService.getAnalyticsData, h]
  · unfold TradingService.analyticsQuery TradingService.analyticsBaseQuery
    split_ifs <;> rfl
  · intro rows h
    simp [TradingService.getAnalyticsData, h, jsOr, JsVal.truthy]

/-- Witness for C6 at a concrete environment whose analytics read returns
two concrete rows: the result forwards exactly those rows. -/
theorem C6_analytics_direct_read_witness :
    (({ baseEnv with db := fun _ => .ok (some (.arr [.obj [("date", .str "2024-01-01")],
        .obj [("date", .str "2024-01-02")]])) none } : Env).db
      (TradingService.analyticsQuery (.obj [])) =
        .ok (some (.arr [.obj [("date", .str "2024-01-01")],
          .obj [("date", .str "2024-01-02")]])) none) ∧
    (TradingService.getAnalyticsData (.obj [])
      { baseEnv with db := fun _ => .ok (some (.arr [.obj [("date", .str "2024-01-01")],
          .obj [("date", .str "2024-01-02")]])) none }).1 =
      .obj [("success", .bool true), ("data", .arr [.obj [("date", .str "2024-01-01")],
        .obj [("date", .str "2024-01-02")]]), ("error", .null)] :=
  ⟨rfl, (C6_analytics_direct_read (.obj []) _).2.2 _ rfl⟩

/- ### C10: list-returning reads never yield null data -/

/-- Backend discipline for list reads: a resolved read's row payload is
either absent (`null`) or an array. -/
def listShaped : DbOutcome → Bool
  | .ok (some (.arr _)) _ => true
  | .ok none _ => true
  | .ok (some _) _ => false
  | .thrown _ => true

/-- The `data` field of a result object is an array. -/
def hasArrayData (r : JsVal) : Bool :=
  match r.get "data" with
  | some (.arr _) => true
  | _ => false

/-- The common shape of the five list reads
(`getTradingAccounts`, `getTrades`, `getAnalyticsData`, `getBrokers`,
`getStrategies`): one read, `data || []` on success, `[]` on both failure
paths. -/
def listReadResult (q : DbRead) (msg : String) (env : Env) : JsVal × List Request :=
  match env.db q with
  | .thrown _ =>
      (.obj [("success", .bool false), ("data", .arr []), ("error", .str msg)], [.read q])
  | .ok data err =>
    match err with
    | some m =>
        (.obj [("success", .bool false), ("data", .arr []), ("error", .str m)], [.read q])
    | none =>
        (.obj [("success", .bool true), ("data", jsOr data (.arr [])), ("error", .null)],
         [.read q])

theorem getTradingAccounts_eq_listRead (env : Env) :
    TradingService.getTradingAccounts env =
      listReadResult TradingService.tradingAccountsQuery "Failed to fetch trading accounts" env :=
  rfl

theorem getTrades_eq_listRead (filters : JsVal) (env : Env) :
    TradingService.getTrades filters env =
      listReadResult (TradingService.tradesQuery filters) "Failed to fetch trades" env :=
  rfl

theorem getAnalyticsData_eq_listRead (filters : JsVal) (env : Env) :
    TradingService.getAnalyticsData filters env =
      listReadResult (TradingService.analyticsQuery filters) "Failed to fetch analytics data" env :=
  rfl

theorem getBrokers_eq_listRead (env : Env) :
    TradingService.getBrokers env =
      listReadResult TradingService.brokersQuery "Failed to fetch brokers" env :=
  rfl

theorem getStrategies_eq_listRead (env : Env) :
    TradingService.getStrategies env =
      listReadResult TradingService.strategiesQuery "Failed to fetch strategies" env :=
  rfl

theorem listReadResult_shape (q : DbRead) (msg : String) (env : Env)
    (h : listShaped (env.db q) = true) :
    hasArrayData (listReadResult q msg env).1 = true ∧
    (jsTruthy ((listReadResult q msg env).1.get "success") = false →
      (listReadResult q msg env).1.get "data" = some (.arr [])) := by
  rcases hd : env.db q with m | ⟨data, err⟩
  · simp [listReadResult, hd, hasArrayData, JsVal.get, jsTruthy, JsVal.truthy, List.lookup]
  · rcases err with _ | m
    · rcases data with _ | v
      · simp [listReadResult, hd, hasArrayData, JsVal.get, jsTruthy, JsVal.truthy, jsOr,
          List.lookup]
      · rcases v with _ | b | n | s | xs | fs <;>
          simp_all [listReadResult, hd, hasArrayData, JsVal.get, jsTruthy, JsVal.truthy,
            jsOr, listShaped, List.lookup]
    · simp [listReadResult, hd, hasArrayData, JsVal.get, jsTruthy, JsVal.truthy, List.lookup]

/-- C10: for every environment whose reads are list-shaped (rows or
null), each of the five list reads returns a `data` field that is an
array, and the empty array on every failure path. -/
theorem C10_list_reads_array_data (env : Env) (filters : JsVal)
    (h : ∀ q, listShaped (env.db q) = true) :
    (hasArrayData (TradingService.getTradingAccounts env).1 = true ∧
      (jsTruthy ((TradingService.getTradingAccounts env).1.get "success") = false →
        (TradingService.getTradingAccounts env).1.get "data" = some (.arr []))) ∧
    (hasArrayData (TradingService.getTrades filters env).1 = true ∧
      (jsTruthy ((TradingService.getTrades filters env).1.get "success") = false →
        (TradingService.getTrades filters env).1.get "data" = some (.arr []))) ∧
    (hasArrayData (TradingService.getAnalyticsData filters env).1 = true ∧
      (jsTruthy ((TradingService.getAnalyticsData filters env).1.get "success") = false →
        (TradingService.getAnalyticsData filters env).1.get "data" = some (.arr []))) ∧
    (hasArrayData (TradingService.getBrokers env).1 = true ∧
      (jsTruthy ((TradingService.getBrokers env).1.get "success") = false →
        (TradingService.getBrokers env).1.get "data" = some (.arr []))) ∧
    (hasArrayData (TradingService.getStrategies env).1 = true ∧
      (jsTruthy ((TradingService.getStrategies env).1.get "success") = false →
        (TradingService.getStrategies env).1.get "data" = some (.arr []))) := by
  rw [getTradingAccounts_eq_listRead, getTrades_eq_listRead, getAnalyticsData_eq_listRead,
    getBrokers_eq_listRead, getStrategies_eq_listRead]
  exact ⟨listReadResult_shape _ _ _ (h _), listReadResult_shape _ _ _ (h _),
    listReadResult_shape _ _ _ (h _), listReadResult_shape _ _ _ (h _),
    listReadResult_shape _ _ _ (h _)⟩

/-- An environment whose `brokers` reads fail with a backend error and
whose other reads resolve with null data. -/
def brokersDownEnv : Env := { baseEnv with
  db := fun q => if q.table = "brokers" then .ok none (some "backend down") else .ok none none }

/-- Witness for C10: in `brokersDownEnv`, reads are list-shaped and the
failing `getBrokers` still returns the empty array. -/
theorem C10_list_reads_array_data_witness :
    listShaped (brokersDownEnv.db TradingService.brokersQuery) = true ∧
    jsTruthy ((TradingService.getBrokers brokersDownEnv).1.get "success") = false ∧
    (TradingService.getBrokers brokersDownEnv).1.get "data" = some (.arr []) := by
  have hls : ∀ q, listShaped (brokersDownEnv.db q) = true := by
    intro q
    by_cases hq : q.table = "brokers" <;> simp [listShaped, brokersDownEnv, hq]
  refine ⟨hls TradingService.brokersQuery, by rfl, ?_⟩
  exact (C10_list_reads_array_data brokersDownEnv (.obj []) hls).2.2.2.1.2 (by rfl)

/- ### C8: createTrade validates before writing -/

/-- C8: `createTrade` is atomic on validation failure: with no
authenticated user the result is `'User not authenticated'`; with a falsy
user id it is `'Invalid user ID'`; with `instrument`, `quantity` or
`entryPrice` missing or falsy it is `'Missing required trade data'`; each
such result has `success:false` and `data:null`, and the only request
issued is `auth.getUser` — no insert into `trades` is performed. -/
theorem C8_createTrade_validation (tradeData : JsVal) (env : Env) :
    (∀ d uerr, env.eff .authGetUser = .ok (some d) uerr →
      (uerr.isSome ∨ jsTruthy (d.get "user") = false) →
      TradingService.createTrade tradeData env =
        (.obj [("success", .bool false), ("data", .null),
          ("error", .str "User not authenticated")], [.authGetUser])) ∧
    (∀ d, env.eff .authGetUser = .ok (some d) none →
      jsTruthy (d.get "user") = true →
      jsTruthy (jsToStr (optGet (d.get "user") "id")) = false →
      TradingService.createTrade tradeData env =
        (.obj [("success", .bool false), ("data", .null),
          ("error", .str "Invalid user ID")], [.authGetUser])) ∧
    (∀ d, env.eff .authGetUser = .ok (some d) none →
      jsTruthy (d.get "user") = true →
      jsTruthy (jsToStr (optGet (d.get "user") "id")) = true →
      (jsTruthy (tradeData.get "instrument") = false ∨
       jsTruthy (tradeData.get "quantity") = false ∨
       jsTruthy (tradeData.get "entryPrice") = false) →
      TradingService.createTrade tradeData env =
        (.obj [("success", .bool false), ("data", .null),
          ("error", .str "Missing required trade data")], [.authGetUser])) := by
  refine ⟨?_, ?_, ?_⟩
  · intro d uerr he hcond
    have hc : (uerr.isSome || !(jsTruthy (d.get "user"))) = true := by
      rcases hcond with h1 | h1 <;> simp [h1]
    simp [TradingService.createTrade, he, hc]
  · intro d he h2 h3
    simp [TradingService.createTrade, he, h2, h3]
  · intro d he h2 h3 h4
    rcases h4 with h4 | h4 | h4 <;> simp [TradingService.createTrade, he, h2, h3, h4]

/-- An environment whose `auth.getUser` resolves with a null user. -/
def authNoUserEnv : Env := { baseEnv with
  eff := fun r => match r with
    | .authGetUser => .ok (some (.obj [("user", .null)])) none
    | _ => .ok none none }

/-- An environment whose `auth.getUser` resolves with a user whose id is
null. -/
def authUserNoIdEnv : Env := { baseEnv with
  eff := fun r => match r with
    | .authGetUser => .ok (some (.obj [("user", .obj [("id", .null)])])) none
    | _ => .ok none none }

/-- An environment whose `auth.getUser` resolves with user `u1`. -/
def authUserEnv : Env := { baseEnv with
  eff := fun r => match r with
    | .authGetUser => .ok (some (.obj [("user", .obj [("id", .str "u1")])])) none
    | _ => .ok none none }

/-- Witness for C8: each validation branch exercised at a concrete
environment and trade payload. -/
theorem C8_createTrade_validation_witness :
    TradingService.createTrade (.obj []) authNoUserEnv =
      (.obj [("success", .bool false), ("data", .null),
        ("error", .str "User not authenticated")], [.authGetUser]) ∧
    TradingService.createTrade (.obj []) authUserNoIdEnv =
      (.obj [("success", .bool false), ("data", .null),
        ("error", .str "Invalid user ID")], [.authGetUser]) ∧
    TradingService.createTrade (.obj [("instrument", .str "NIFTY"), ("quantity", .num 0),
        ("entryPrice", .num 100)]) authUserEnv =
      (.obj [("success", .bool false), ("data", .null),
        ("error", .str "Missing required trade data")], [.authGetUser]) :=
  ⟨(C8_createTrade_validation (.obj []) authNoUserEnv).1 _ none rfl (Or.inr (by decide)),
   (C8_createTrade_validation (.obj []) authUserNoIdEnv).2.1 _ rfl (by decide) (by decide),
   (C8_createTrade_validation (.obj [("instrument", .str "NIFTY"), ("quantity", .num 0),
       ("entryPrice", .num 100)]) authUserEnv).2.2 _ rfl (by decide) (by decide)
     (Or.inr (Or.inl (by decide)))⟩

/- ### C4: derived values in reads (refuted by getPortfolioSummary) -/

/-- The atomic values contained in a read's response payload. -/
def respLeaves : DbOutcome → List JsVal
  | .ok (some v) _ => v.leaves
  | _ => []

/-- A concrete portfolio row with `total_pnl` 30. -/
def portfolioRow : JsVal := .obj [("id", .str "p1"), ("total_pnl", .num 30)]

/-- A concrete active account row with balance 100. -/
def accountRow1 : JsVal := .obj [("balance", .num 100), ("currency", .str "USD")]

/-- A concrete active account row with balance 50. -/
def accountRow2 : JsVal := .obj [("balance", .num 50), ("currency", .str "USD")]

/-- An environment with one portfolio row and two active accounts. -/
def portfolioEnv : Env := { baseEnv with
  db := fun q =>
    if q.table = "portfolios" then .ok (some (.arr [portfolioRow])) none
    else if q.table = "trading_accounts" then .ok (some (.arr [accountRow1, accountRow2])) none
    else .ok none none }

/-- Characterization of `getPortfolioSummary` on the success path (shared
helper). -/
theorem getPortfolioSummary_eq (env : Env) (portfolios accounts : List JsVal)
    (hp : env.db TradingService.portfoliosQuery = .ok (some (.arr portfolios)) none)
    (ha : env.db TradingService.accountBalancesQuery = .ok (some (.arr accounts)) none) :
    (TradingService.getPortfolioSummary env).1 =
      .obj [("success", .bool true),
            ("data", .obj [
              ("portfolios", .arr portfolios),
              ("totalBalance", .num (sumField accounts "balance")),
              ("totalPnL", .num (sumField portfolios "total_pnl")),
              ("totalPnLPercentage", .num (if sumField accounts "balance" > 0 then
                  sumField portfolios "total_pnl" / sumField accounts "balance" * 100 else 0))]),
            ("error", .null)] ∧
    (TradingService.getPortfolioSummary env).2 =
      [.read TradingService.portfoliosQuery, .read TradingService.accountBalancesQuery] := by
  constructor <;> simp [TradingService.getPortfolioSummary, hp, ha, jsOr, JsVal.truthy]

/-- Concrete evaluation: the two account balances sum to 150. -/
theorem sumField_balance_concrete : sumField [accountRow1, accountRow2] "balance" = 150 := by
  have h1 : sumField [accountRow1, accountRow2] "balance" = 0 + 100 + 50 := rfl
  rw [h1]; norm_num

/-- Concrete evaluation: the single portfolio `total_pnl` sums to 30. -/
theorem sumField_pnl_concrete : sumField [portfolioRow] "total_pnl" = 30 := by
  have h1 : sumField [portfolioRow] "total_pnl" = 0 + 30 := rfl
  rw [h1]; norm_num

/-- C4 is false on the code: at a concrete backend with balances 100 and
50, the successful `getPortfolioSummary` returns `totalBalance` 150 — a
client-computed aggregate that appears nowhere in the backend's
materialized result sets. -/
theorem C4_counterexample :
    optGet ((TradingService.getPortfolioSummary portfolioEnv).1.get "data") "totalBalance" =
      some (.num 150) ∧
    jsTruthy ((TradingService.getPortfolioSummary portfolioEnv).1.get "success") = true ∧
    jsMem (.num 150)
      (respLeaves (portfolioEnv.db TradingService.portfoliosQuery) ++
        respLeaves (portfolioEnv.db TradingService.accountBalancesQuery)) = false := by
  have h := (getPortfolioSummary_eq portfolioEnv [portfolioRow]
    [accountRow1, accountRow2] rfl rfl).1
  refine ⟨?_, ?_, by decide⟩
  · rw [h, sumField_balance_concrete]
    simp [optGet, JsVal.get, List.lookup]
  · rw [h]
    rfl

/-- C4 amended: every service read other than `getPortfolioSummary`
forwards materialized rows (with filtering and ordering only), but
`getPortfolioSummary` additionally returns client-computed aggregates:
`totalBalance` is the sum of the active accounts' parsed balances,
`totalPnL` the sum of the portfolios' parsed `total_pnl`, and
`totalPnLPercentage` their ratio times 100 (0 when the balance is not
positive). -/
theorem C4_amended_portfolio_aggregates (env : Env) (portfolios accounts : List JsVal)
    (hp : env.db TradingService.portfoliosQuery = .ok (some (.arr portfolios)) none)
    (ha : env.db TradingService.accountBalancesQuery = .ok (some (.arr accounts)) none) :
    (TradingService.getPortfolioSummary env).1 =
      .obj [("success", .bool true),
            ("data", .obj [
              ("portfolios", .arr portfolios),
              ("totalBalance", .num (sumField accounts "balance")),
              ("totalPnL", .num (sumField portfolios "total_pnl")),
              ("totalPnLPercentage", .num (if sumField accounts "balance" > 0 then
                  sumField portfolios "total_pnl" / sumField accounts "balance" * 100 else 0))]),
            ("error", .null)] ∧
    (TradingService.getPortfolioSummary env).2 =
      [.read TradingService.portfoliosQuery, .read TradingService.accountBalancesQuery] :=
  getPortfolioSummary_eq env portfolios accounts hp ha

/-- Witness for the amended C4 at the concrete two-account backend:
`totalBalance` 150, `totalPnL` 30, percentage 20. -/
theorem C4_amended_portfolio_aggregates_witness :
    portfolioEnv.db TradingService.portfoliosQuery =
      .ok (some (.arr [portfolioRow])) none ∧
    portfolioEnv.db TradingService.accountBalancesQuery =
      .ok (some (.arr [accountRow1, accountRow2])) none ∧
    (TradingService.getPortfolioSummary portfolioEnv).1 =
      .obj [("success", .bool true),
            ("data", .obj [
              ("portfolios", .arr [portfolioRow]),
              ("totalBalance", .num 150),
              ("totalPnL", .num 30),
              ("totalPnLPercentage", .num 20)]),
            ("error", .null)] := by
  refine ⟨rfl, rfl, ?_⟩
  have h := (C4_amended_portfolio_aggregates portfolioEnv [portfolioRow]
    [accountRow1, accountRow2] rfl rfl).1
  rw [h, sumField_balance_concrete, sumField_pnl_concrete]
  norm_num

/- ### C3: broker sync functions are zero-import stubs -/

/-- Write requests (inserts, updates, deletes). -/
def Request.isWrite : Request → Bool
  | .insert _ | .update _ | .delete _ => true
  | _ => false

/-- A fetch outcome with a truthy `ok` flag. -/
def HttpOutcome.isOk : HttpOutcome → Bool
  | .resp true _ => true
  | _ => false

/-- The requests of one credential retrieval: the auth lookup, optionally
followed by the single-row brokers read. -/
theorem getBrokerCredentials_trace (brokerId : Option JsVal) (env : Env) :
    (BrokerCredentialService.getBrokerCredentials brokerId env).2 = [Request.authGetUser] ∨
    ∃ q, (BrokerCredentialService.getBrokerCredentials brokerId env).2 =
      [Request.authGetUser, Request.read q] := by
  unfold BrokerCredentialService.getBrokerCredentials
  split
  · exact Or.inl rfl
  · split
    · exact Or.inl rfl
    · dsimp only
      split
      · exact Or.inr ⟨_, rfl⟩
      · split
        · exact Or.inr ⟨_, rfl⟩
        · split
          · exact Or.inr ⟨_, rfl⟩
          · split
            · split
              · exact Or.inr ⟨_, rfl⟩
              · exact Or.inr ⟨_, rfl⟩
            · exact Or.inr ⟨_, rfl⟩

/-- A credential retrieval issues no writes and no duplicate requests. -/
theorem getBrokerCredentials_trace_clean (brokerId : Option JsVal) (env : Env) :
    (BrokerCredentialService.getBrokerCredentials brokerId env).2.filter Request.isWrite = [] ∧
    (BrokerCredentialService.getBrokerCredentials brokerId env).2.Nodup := by
  rcases getBrokerCredentials_trace brokerId env with h | ⟨q, h⟩ <;> rw [h] <;>
    simp [Request.isWrite]

/-- C3: the three credential-based sync functions are stubs — whenever
credentials are retrievable and the remote fetch (where one is made)
succeeds, each returns `{success: true, data: {importedCount: 0},
error: null}`; and none of the three ever issues a write request, so no
trade rows are imported. -/
theorem C3_sync_stubs_zero_imports (brokerId : Option JsVal) (env : Env) :
    (jsTruthy ((BrokerCredentialService.getBrokerCredentials brokerId env).1.get "success")
        = true →
      (∀ hd, (env.http "https://api.kite.trade/portfolio/positions" hd).isOk = true) →
      (TradingService.syncZerodhaData brokerId env).1 =
        .obj [("success", .bool true), ("data", .obj [("importedCount", .num 0)]),
          ("error", .null)]) ∧
    (jsTruthy ((BrokerCredentialService.getBrokerCredentials brokerId env).1.get "success")
        = true →
      (TradingService.syncInteractiveBrokersData brokerId env).1 =
        .obj [("success", .bool true), ("data", .obj [("importedCount", .num 0)]),
          ("error", .null)]) ∧
    (jsTruthy ((BrokerCredentialService.getBrokerCredentials brokerId env).1.get "success")
        = true →
      (∀ hd, (env.http "https://paper-api.alpaca.markets/v2/positions" hd).isOk = true) →
      (TradingService.syncAlpacaData brokerId env).1 =
        .obj [("success", .bool true), ("data", .obj [("importedCount", .num 0)]),
          ("error", .null)]) ∧
    (TradingService.syncZerodhaData brokerId env).2.filter Request.isWrite = [] ∧
    (TradingService.syncInteractiveBrokersData brokerId env).2.filter Request.isWrite = [] ∧
    (TradingService.syncAlpacaData brokerId env).2.filter Request.isWrite = [] := by
  have hclean := (getBrokerCredentials_trace_clean brokerId env).1
  refine ⟨?_, ?_, ?_, ?_, ?_, ?_⟩
  · intro hs hh
    rcases hr : env.http "https://api.kite.trade/portfolio/positions"
        [("Authorization", "token " ++ jsTemplateO (optGet (optGet
            ((BrokerCredentialService.getBrokerCredentials brokerId env).1.get "data")
            "credentials") "apiKey") ++ ":" ++ jsTemplateO (optGet (optGet
            ((BrokerCredentialService.getBrokerCredentials brokerId env).1.get "data")
            "credentials") "apiSecret")), ("X-Kite-Version", "3")]
      with m | ⟨ok, j⟩
    · have h2 := hh [("Authorization", "token " ++ jsTemplateO (optGet (optGet
            ((BrokerCredentialService.getBrokerCredentials brokerId env).1.get "data")
            "credentials") "apiKey") ++ ":" ++ jsTemplateO (optGet (optGet
            ((BrokerCredentialService.getBrokerCredentials brokerId env).1.get "data")
            "credentials") "apiSecret")), ("X-Kite-Version", "3")]
      rw [hr] at h2
      simp [HttpOutcome.isOk] at h2
    · rcases ok with _ | _
      · have h2 := hh [("Authorization", "token " ++ jsTemplateO (optGet (optGet
            ((BrokerCredentialService.getBrokerCredentials brokerId env).1.get "data")
            "credentials") "apiKey") ++ ":" ++ jsTemplateO (optGet (optGet
            ((BrokerCredentialService.getBrokerCredentials brokerId env).1.get "data")
            "credentials") "apiSecret")), ("X-Kite-Version", "3")]
        rw [hr] at h2
        simp [HttpOutcome.isOk] at h2
      · simp [TradingService.syncZerodhaData, hs, hr]
  · intro hs
    simp [TradingService.syncInteractiveBrokersData, hs]
  · intro hs hh
    rcases hr : env.http "https://paper-api.alpaca.markets/v2/positions"
        [("APCA-API-KEY-ID", jsTemplateO (optGet (optGet
            ((BrokerCredentialService.getBrokerCredentials brokerId env).1.get "data")
            "credentials") "apiKey")),
         ("APCA-API-SECRET-KEY", jsTemplateO (optGet (optGet
            ((BrokerCredentialService.getBrokerCredentials brokerId env).1.get "data")
            "credentials") "apiSecret"))]
      with m | ⟨ok, j⟩
    · have h2 := hh [("APCA-API-KEY-ID", jsTemplateO (optGet (optGet
            ((BrokerCredentialService.getBrokerCredentials brokerId env).1.get "data")
            "credentials") "apiKey")),
         ("APCA-API-SECRET-KEY", jsTemplateO (optGet (optGet
            ((BrokerCredentialService.getBrokerCredentials brokerId env).1.get "data")
            "credentials") "apiSecret"))]
      rw [hr] at h2
      simp [HttpOutcome.isOk] at h2
    · rcases ok with _ | _
      · have h2 := hh [("APCA-API-KEY-ID", jsTemplateO (optGet (optGet
            ((BrokerCredentialService.getBrokerCredentials brokerId env).1.get "data")
            "credentials") "apiKey")),
         ("APCA-API-SECRET-KEY", jsTemplateO (optGet (optGet
            ((BrokerCredentialService.getBrokerCredentials brokerId env).1.get "data")
            "credentials") "apiSecret"))]
        rw [hr] at h2
        simp [HttpOutcome.isOk] at h2
      · simp [TradingService.syncAlpacaData, hs, hr]
  · by_cases hs : jsTruthy ((BrokerCredentialService.getBrokerCredentials brokerId env).1.get
        "success") = true
    · rcases hr : env.http "https://api.kite.trade/portfolio/positions"
          [("Authorization", "token " ++ jsTemplateO (optGet (optGet
              ((BrokerCredentialService.getBrokerCredentials brokerId env).1.get "data")
              "credentials") "apiKey") ++ ":" ++ jsTemplateO (optGet (optGet
              ((BrokerCredentialService.getBrokerCredentials brokerId env).1.get "data")
              "credentials") "apiSecret")), ("X-Kite-Version", "3")]
        with m | ⟨ok, j⟩
      · simp [TradingService.syncZerodhaData, hs, hr, List.filter_append, hclean,
          Request.isWrite]
      · rcases ok with _ | _ <;>
          simp [TradingService.syncZerodhaData, hs, hr, List.filter_append, hclean,
            Request.isWrite]
    · simp only [Bool.not_eq_true] at hs
      simp [TradingService.syncZerodhaData, hs, hclean]
  · by_cases hs : jsTruthy ((BrokerCredentialService.getBrokerCredentials brokerId env).1.get
        "success") = true
    · simp [TradingService.syncInteractiveBrokersData, hs, hclean]
    · simp only [Bool.not_eq_true] at hs
      simp [TradingService.syncInteractiveBrokersData, hs, hclean]
  · by_cases hs : jsTruthy ((BrokerCredentialService.getBrokerCredentials brokerId env).1.get
        "success") = true
    · rcases hr : env.http "https://paper-api.alpaca.markets/v2/positions"
          [("APCA-API-KEY-ID", jsTemplateO (optGet (optGet
              ((BrokerCredentialService.getBrokerCredentials brokerId env).1.get "data")
              "credentials") "apiKey")),
           ("APCA-API-SECRET-KEY", jsTemplateO (optGet (optGet
              ((BrokerCredentialService.getBrokerCredentials brokerId env).1.get "data")
              "credentials") "apiSecret"))]
        with m | ⟨ok, j⟩
      · simp [TradingService.syncAlpacaData, hs, hr, List.filter_append, hclean,
          Request.isWrite]
      · rcases ok with _ | _ <;>
          simp [TradingService.syncAlpacaData, hs, hr, List.filter_append, hclean,
            Request.isWrite]
    · simp only [Bool.not_eq_true] at hs
      simp [TradingService.syncAlpacaData, hs, hclean]

/-- A ciphertext stored by the service under the default key. -/
def storedCredCipher : String :=
  BrokerCredentialService.encrypt "default-encryption-key-change-me"
    (.obj [("apiKey", .str "k1"), ("apiSecret", .str "s1")])

/-- A concrete active zerodha broker row carrying the ciphertext. -/
def credBrokerRow : JsVal := .obj [("id", .num 7), ("name", .str "zerodha"),
  ("status", .str "active"), ("api_key", .str storedCredCipher)]

/-- An environment with an authenticated user, the stored broker row, and
an accepting remote side. -/
def credEnv : Env := { baseEnv with
  eff := fun r => match r with
    | .authGetUser => .ok (some (.obj [("user", .obj [("id", .str "u1")])])) none
    | _ => .ok none none,
  db := fun q => if q.single then .ok (some credBrokerRow) none
    else .ok (some (.arr [credBrokerRow])) none }

/-- Witness for C3: at the concrete environment the credentials decrypt,
the remote accepts, and all three syncs return the zero-import stub. -/
theorem C3_sync_stubs_zero_imports_witness :
    jsTruthy ((BrokerCredentialService.getBrokerCredentials (some (.num 7)) credEnv).1.get
      "success") = true ∧
    (credEnv.http "https://api.kite.trade/portfolio/positions" []).isOk = true ∧
    (TradingService.syncZerodhaData (some (.num 7)) credEnv).1 =
      .obj [("success", .bool true), ("data", .obj [("importedCount", .num 0)]),
        ("error", .null)] ∧
    (TradingService.syncInteractiveBrokersData (some (.num 7)) credEnv).1 =
      .obj [("success", .bool true), ("data", .obj [("importedCount", .num 0)]),
        ("error", .null)] ∧
    (TradingService.syncAlpacaData (some (.num 7)) credEnv).1 =
      .obj [("success", .bool true), ("data", .obj [("importedCount", .num 0)]),
        ("error", .null)] := by
  have hs : jsTruthy ((BrokerCredentialService.getBrokerCredentials (some (.num 7))
      credEnv).1.get "success") = true := by decide
  have hh1 : ∀ hd, (credEnv.http "https://api.kite.trade/portfolio/positions" hd).isOk
      = true := fun _ => rfl
  have hh2 : ∀ hd, (credEnv.http "https://paper-api.alpaca.markets/v2/positions" hd).isOk
      = true := fun _ => rfl
  exact ⟨hs, hh1 [],
    (C3_sync_stubs_zero_imports (some (.num 7)) credEnv).1 hs hh1,
    (C3_sync_stubs_zero_imports (some (.num 7)) credEnv).2.1 hs,
    (C3_sync_stubs_zero_imports (some (.num 7)) credEnv).2.2.1 hs hh2⟩

/- ### syncFromBrokers bookkeeping lemmas (C9, C7) -/

/-- Every Zerodha sync result either fails or is the zero-import stub. -/
theorem syncZerodhaData_cases (brokerId : Option JsVal) (env : Env) :
    jsTruthy ((TradingService.syncZerodhaData brokerId env).1.get "success") = false ∨
    (TradingService.syncZerodhaData brokerId env).1 =
      .obj [("success", .bool true), ("data", .obj [("importedCount", .num 0)]),
        ("error", .null)] := by
  unfold TradingService.syncZerodhaData
  by_cases hc : jsTruthy ((BrokerCredentialService.getBrokerCredentials brokerId env).1.get
      "success") = true
  · simp only [hc, Bool.not_true, Bool.false_eq_true, if_neg, not_false_eq_true]
    split
    · left; simp [jsTruthy, JsVal.get, List.lookup, JsVal.truthy]
    · split
      · left; simp [jsTruthy, JsVal.get, List.lookup, JsVal.truthy]
      · right; rfl
  · left
    simp only [Bool.not_eq_true] at hc
    simp [hc]

/-- A successful Zerodha sync reports zero imported records. -/
theorem syncZerodhaData_zero_import (brokerId : Option JsVal) (env : Env) :
    jsTruthy ((TradingService.syncZerodhaData brokerId env).1.get "success") = true →
    optGet ((TradingService.syncZerodhaData brokerId env).1.get "data") "importedCount" =
      some (.num 0) := by
  intro hs
  rcases syncZerodhaData_cases brokerId env with h | h
  · rw [hs] at h; cases h
  · rw [h]; rfl

/-- Every Interactive Brokers sync result either fails or is the
zero-import stub. -/
theorem syncInteractiveBrokersData_cases (brokerId : Option JsVal) (env : Env) :
    jsTruthy ((TradingService.syncInteractiveBrokersData brokerId env).1.get "success")
      = false ∨
    (TradingService.syncInteractiveBrokersData brokerId env).1 =
      .obj [("success", .bool true), ("data", .obj [("importedCount", .num 0)]),
        ("error", .null)] := by
  unfold TradingService.syncInteractiveBrokersData
  by_cases hc : jsTruthy ((BrokerCredentialService.getBrokerCredentials brokerId env).1.get
      "success") = true
  · right
    simp only [hc, Bool.not_true, Bool.false_eq_true, if_neg, not_false_eq_true]
  · left
    simp only [Bool.not_eq_true] at hc
    simp [hc]

/-- A successful Interactive Brokers sync reports zero imported records. -/
theorem syncInteractiveBrokersData_zero_import (brokerId : Option JsVal) (env : Env) :
    jsTruthy ((TradingService.syncInteractiveBrokersData brokerId env).1.get "success")
      = true →
    optGet ((TradingService.syncInteractiveBrokersData brokerId env).1.get "data")
      "importedCount" = some (.num 0) := by
  intro hs
  rcases syncInteractiveBrokersData_cases brokerId env with h | h
  · rw [hs] at h; cases h
  · rw [h]; rfl

/-- Every Alpaca sync result either fails or is the zero-import stub. -/
theorem syncAlpacaData_cases (brokerId : Option JsVal) (env : Env) :
    jsTruthy ((TradingService.syncAlpacaData brokerId env).1.get "success") = false ∨
    (TradingService.syncAlpacaData brokerId env).1 =
      .obj [("success", .bool true), ("data", .obj [("importedCount", .num 0)]),
        ("error", .null)] := by
  unfold TradingService.syncAlpacaData
  by_cases hc : jsTruthy ((BrokerCredentialService.getBrokerCredentials brokerId env).1.get
      "success") = true
  · simp only [hc, Bool.not_true, Bool.false_eq_true, if_neg, not_false_eq_true]
    split
    · left; simp [jsTruthy, JsVal.get, List.lookup, JsVal.truthy]
    · split
      · left; simp [jsTruthy, JsVal.get, List.lookup, JsVal.truthy]
      · right; rfl
  · left
    simp only [Bool.not_eq_true] at hc
    simp [hc]

/-- A successful Alpaca sync reports zero imported records. -/
theorem syncAlpacaData_zero_import (brokerId : Option JsVal) (env : Env) :
    jsTruthy ((TradingService.syncAlpacaData brokerId env).1.get "success") = true →
    optGet ((TradingService.syncAlpacaData brokerId env).1.get "data") "importedCount" =
      some (.num 0) := by
  intro hs
  rcases syncAlpacaData_cases brokerId env with h | h
  · rw [hs] at h; cases h
  · rw [h]; rfl

/-- A successful Upstox import (spec-modelled stub) reports zero imported
records. -/
theorem upstoxImport_zero_import (env : Env) :
    jsTruthy ((UpstoxService.importTradesToDatabase env).1.get "success") = true →
    optGet ((UpstoxService.importTradesToDatabase env).1.get "data") "importedCount" =
      some (.num 0) := by
  intro hs
  unfold UpstoxService.importTradesToDatabase at hs ⊢
  by_cases h : env.upstoxImportOk = true
  · simp [h, optGet, JsVal.get, List.lookup]
  · simp only [Bool.not_eq_true] at h
    simp [h, jsTruthy, JsVal.get, List.lookup, JsVal.truthy] at hs

/-- `recordSyncResult` of a result whose `importedCount` is zero (or
which failed) leaves `totalImported` unchanged. -/
theorem recordSyncResult_totalImported (broker r : JsVal) (st : TradingService.SyncState)
    (h : jsTruthy (r.get "success") = true →
      optGet (r.get "data") "importedCount" = some (.num 0)) :
    (TradingService.recordSyncResult broker r st).totalImported = st.totalImported := by
  unfold TradingService.recordSyncResult
  by_cases hs : jsTruthy (r.get "success") = true
  · simp only [hs, if_pos]
    rw [h hs]
    simp [jsOr, JsVal.truthy, ratOf]
  · simp only [Bool.not_eq_true] at hs
    simp [hs]

/-- `recordSyncResult` either leaves the error list unchanged (success)
or appends exactly the `name: error` message. -/
theorem recordSyncResult_errors (broker r : JsVal) (st : TradingService.SyncState) :
    (TradingService.recordSyncResult broker r st).errors = st.errors ∨
    ∃ e, (TradingService.recordSyncResult broker r st).errors = st.errors ++ [e] := by
  by_cases hs : jsTruthy (r.get "success") = true
  · exact Or.inl (by simp [TradingService.recordSyncResult, hs])
  · simp only [Bool.not_eq_true] at hs
    exact Or.inr ⟨jsTemplateO (broker.get "name") ++ ": " ++ jsTemplateO (r.get "error"),
      by simp [TradingService.recordSyncResult, hs]⟩

/-- One broker-loop step never changes the running `totalImported`. -/
theorem syncBrokerStep_totalImported (env : Env) (acc : TradingService.SyncState × List Request)
    (b : JsVal) :
    (TradingService.syncBrokerStep env acc b).1.totalImported = acc.1.totalImported := by
  obtain ⟨st, tr⟩ := acc
  unfold TradingService.syncBrokerStep
  rcases hb : b.get "name" with _ | v
  · exact recordSyncResult_totalImported _ _ _ (by intro h; simp [jsTruthy, JsVal.get,
      List.lookup, JsVal.truthy] at h)
  · rcases v with _ | bb | q | s | xs | fs
    · exact recordSyncResult_totalImported _ _ _ (by intro h; simp [jsTruthy, JsVal.get,
        List.lookup, JsVal.truthy] at h)
    · rfl
    · rfl
    · dsimp only
      by_cases h1 : jsToLower s = "upstox"
      · simp only [h1, if_pos]
        by_cases h2 : UpstoxService.isConnected env = true
        · simp only [h2, if_pos]
          exact recordSyncResult_totalImported _ _ _ (upstoxImport_zero_import env)
        · simp only [Bool.not_eq_true] at h2
          simp only [h2, Bool.false_eq_true, if_neg, not_false_eq_true]
          exact recordSyncResult_totalImported _ _ _ (by intro h; simp [jsTruthy, JsVal.get,
            List.lookup, JsVal.truthy] at h)
      · simp only [h1, if_neg, if_false]
        by_cases h2 : jsToLower s = "zerodha kite" ∨ jsToLower s = "zerodha"
        · simp only [h2, if_pos]
          exact recordSyncResult_totalImported _ _ _ (syncZerodhaData_zero_import _ env)
        · simp only [h2, if_neg, if_false]
          by_cases h3 : jsToLower s = "interactive brokers"
          · simp only [h3, if_pos]
            exact recordSyncResult_totalImported _ _ _
              (syncInteractiveBrokersData_zero_import _ env)
          · simp only [h3, if_neg, if_false]
            by_cases h4 : jsToLower s = "alpaca markets" ∨ jsToLower s = "alpaca"
            · simp only [h4, if_pos]
              exact recordSyncResult_totalImported _ _ _ (syncAlpacaData_zero_import _ env)
            · simp only [h4, if_neg, if_false]
              exact recordSyncResult_totalImported _ _ _ (by intro h; simp [jsTruthy,
                JsVal.get, List.lookup, JsVal.truthy] at h)
    · rfl
    · rfl

/-- The broker loop never accumulates a nonzero `totalImported`. -/
theorem syncLoop_totalImported (env : Env) (brokers : List JsVal) :
    ∀ acc : TradingService.SyncState × List Request,
      ((brokers.foldl (TradingService.syncBrokerStep env) acc).1.totalImported
        = acc.1.totalImported) := by
  induction brokers with
  | nil => intro acc; rfl
  | cons b bs ih =>
    intro acc
    rw [List.foldl_cons, ih, syncBrokerStep_totalImported]

/-- The loop state accumulated by `syncFromBrokers` over the active
brokers of a brokers payload. -/
def TradingService.syncLoopState (env : Env) (rows : List JsVal) : TradingService.SyncState :=
  ((TradingService.activeBrokersOf rows).foldl (TradingService.syncBrokerStep env)
    (TradingService.initSyncState, [])).1

/-- Characterization of the fields of a completed `syncFromBrokers`
(shared helper): `totalImported` is 0 and `success` holds exactly when
the accumulated error list is empty. -/
theorem syncFromBrokers_fields (env : Env) (rows : List JsVal)
    (hok : env.db TradingService.brokersQuery = .ok (some (.arr rows)) none)
    (ud : Option JsVal) (ue : Option String)
    (hupd : env.eff (.update (TradingService.lastSyncUpdate env)) = .ok ud ue) :
    optGet ((TradingService.syncFromBrokers env).1.get "data") "totalImported" =
      some (.num 0) ∧
    ((TradingService.syncFromBrokers env).1.get "success" = some (.bool true) ↔
      (TradingService.syncLoopState env rows).errors = []) := by
  have htotal : ((TradingService.activeBrokersOf rows).foldl
      (TradingService.syncBrokerStep env)
      (TradingService.initSyncState, [])).1.totalImported = 0 :=
    syncLoop_totalImported env (TradingService.activeBrokersOf rows)
      (TradingService.initSyncState, [])
  have hgb : TradingService.getBrokers env =
      (⟨.obj [("success", .bool true), ("data", .arr rows), ("error", .null)],
        [.read TradingService.brokersQuery]⟩ : JsVal × List Request) := by
    simp [TradingService.getBrokers, hok, jsOr, JsVal.truthy]
  constructor
  · unfold TradingService.syncFromBrokers
    rw [hgb]
    simp [hupd, jsTruthy, JsVal.get, List.lookup, JsVal.truthy, optGet, htotal]
  · unfold TradingService.syncFromBrokers TradingService.syncLoopState
    rw [hgb]
    simp [hupd, jsTruthy, JsVal.get, List.lookup, JsVal.truthy, htotal, List.isEmpty_iff]

/-- C9: when the brokers read succeeds and the final timestamp update
resolves, `syncFromBrokers` reports `data.totalImported = 0` (every
per-broker sync path — including the spec-modelled Upstox stub — imports
zero records), and its `success` flag is true exactly when the
accumulated per-broker error list is empty. -/
theorem C9_syncFromBrokers_success_iff (env : Env) (rows : List JsVal)
    (hok : env.db TradingService.brokersQuery = .ok (some (.arr rows)) none)
    (ud : Option JsVal) (ue : Option String)
    (hupd : env.eff (.update (TradingService.lastSyncUpdate env)) = .ok ud ue) :
    optGet ((TradingService.syncFromBrokers env).1.get "data") "totalImported" =
      some (.num 0) ∧
    ((TradingService.syncFromBrokers env).1.get "success" = some (.bool true) ↔
      (TradingService.syncLoopState env rows).errors = []) :=
  syncFromBrokers_fields env rows hok ud ue hupd

/-- Witness for C9 at the concrete credential environment: one active
zerodha broker syncs without error, `totalImported` is 0 and `success`
is true. -/
theorem C9_syncFromBrokers_success_iff_witness :
    credEnv.db TradingService.brokersQuery = .ok (some (.arr [credBrokerRow])) none ∧
    credEnv.eff (.update (TradingService.lastSyncUpdate credEnv)) = .ok none none ∧
    optGet ((TradingService.syncFromBrokers credEnv).1.get "data") "totalImported" =
      some (.num 0) ∧
    (TradingService.syncFromBrokers credEnv).1.get "success" = some (.bool true) := by
  have h := C9_syncFromBrokers_success_iff credEnv [credBrokerRow] rfl none none rfl
  refine ⟨rfl, rfl, h.1, h.2.mpr ?_⟩
  decide

/- ### C7: request duplication and no-retry analysis -/

/-- Each list read issues exactly its one query. -/
theorem listReadResult_trace (q : DbRead) (msg : String) (env : Env) :
    (listReadResult q msg env).2 = [.read q] := by
  unfold listReadResult
  split
  · rfl
  · split <;> rfl

/-- A Zerodha sync never issues the same request twice. -/
theorem syncZerodhaData_trace_nodup (brokerId : Option JsVal) (env : Env) :
    (TradingService.syncZerodhaData brokerId env).2.Nodup := by
  unfold TradingService.syncZerodhaData
  by_cases hc : jsTruthy ((BrokerCredentialService.getBrokerCredentials brokerId env).1.get
      "success") = true
  · simp only [hc, Bool.not_true, Bool.false_eq_true, if_neg, not_false_eq_true]
    split
    · rcases getBrokerCredentials_trace brokerId env with h | ⟨q, h⟩ <;> rw [h] <;> simp
    · split <;>
        (rcases getBrokerCredentials_trace brokerId env with h | ⟨q, h⟩ <;> rw [h] <;> simp)
  · simp only [Bool.not_eq_true] at hc
    simp only [hc, Bool.not_false, if_pos]
    exact (getBrokerCredentials_trace_clean brokerId env).2

/-- An Interactive Brokers sync never issues the same request twice. -/
theorem syncInteractiveBrokersData_trace_nodup (brokerId : Option JsVal) (env : Env) :
    (TradingService.syncInteractiveBrokersData brokerId env).2.Nodup := by
  unfold TradingService.syncInteractiveBrokersData
  by_cases hc : jsTruthy ((BrokerCredentialService.getBrokerCredentials brokerId env).1.get
      "success") = true
  · simp only [hc, Bool.not_true, Bool.false_eq_true, if_neg, not_false_eq_true]
    exact (getBrokerCredentials_trace_clean brokerId env).2
  · simp only [Bool.not_eq_true] at hc
    simp only [hc, Bool.not_false, if_pos]
    exact (getBrokerCredentials_trace_clean brokerId env).2

/-- An Alpaca sync never issues the same request twice. -/
theorem syncAlpacaData_trace_nodup (brokerId : Option JsVal) (env : Env) :
    (TradingService.syncAlpacaData brokerId env).2.Nodup := by
  unfold TradingService.syncAlpacaData
  by_cases hc : jsTruthy ((BrokerCredentialService.getBrokerCredentials brokerId env).1.get
      "success") = true
  · simp only [hc, Bool.not_true, Bool.false_eq_true, if_neg, not_false_eq_true]
    split
    · rcases getBrokerCredentials_trace brokerId env with h | ⟨q, h⟩ <;> rw [h] <;> simp
    · split <;>
        (rcases getBrokerCredentials_trace brokerId env with h | ⟨q, h⟩ <;> rw [h] <;> simp)
  · simp only [Bool.not_eq_true] at hc
    simp only [hc, Bool.not_false, if_pos]
    exact (getBrokerCredentials_trace_clean brokerId env).2

/-- `getPortfolioSummary` never issues the same request twice. -/
theorem getPortfolioSummary_trace_nodup (env : Env) :
    (TradingService.getPortfolioSummary env).2.Nodup := by
  have hne : TradingService.portfoliosQuery ≠ TradingService.accountBalancesQuery := by
    intro h
    have h2 := congrArg DbRead.table h
    simp [TradingService.portfoliosQuery, TradingService.accountBalancesQuery] at h2
  unfold TradingService.getPortfolioSummary
  split
  · simp
  · split
    · simp
    · split
      · simp [hne]
      · split <;> simp [hne]

/-- One broker-loop step either leaves the error list unchanged or
appends exactly one `name: error` entry. -/
theorem syncBrokerStep_errors (env : Env) (st : TradingService.SyncState)
    (tr : List Request) (b : JsVal) :
    (TradingService.syncBrokerStep env (st, tr) b).1.errors = st.errors ∨
    ∃ e, (TradingService.syncBrokerStep env (st, tr) b).1.errors = st.errors ++ [e] := by
  unfold TradingService.syncBrokerStep
  rcases hb : b.get "name" with _ | v
  · exact recordSyncResult_errors _ _ _
  · rcases v with _ | bb | q | s | xs | fs
    · exact recordSyncResult_errors _ _ _
    · exact Or.inr ⟨_, rfl⟩
    · exact Or.inr ⟨_, rfl⟩
    · dsimp only
      by_cases h1 : jsToLower s = "upstox"
      · simp only [h1, if_pos]
        by_cases h2 : UpstoxService.isConnected env = true
        · simp only [h2, if_pos]
          exact recordSyncResult_errors _ _ _
        · simp only [Bool.not_eq_true] at h2
          simp only [h2, Bool.false_eq_true, if_neg, not_false_eq_true]
          exact recordSyncResult_errors _ _ _
      · simp only [h1, if_neg, if_false]
        by_cases h2 : jsToLower s = "zerodha kite" ∨ jsToLower s = "zerodha"
        · simp only [h2, if_pos]
          exact recordSyncResult_errors _ _ _
        · simp only [h2, if_neg, if_false]
          by_cases h3 : jsToLower s = "interactive brokers"
          · simp only [h3, if_pos]
            exact recordSyncResult_errors _ _ _
          · simp only [h3, if_neg, if_false]
            by_cases h4 : jsToLower s = "alpaca markets" ∨ jsToLower s = "alpaca"
            · simp only [h4, if_pos]
              exact recordSyncResult_errors _ _ _
            · simp only [h4, if_neg, if_false]
              exact recordSyncResult_errors _ _ _
    · exact Or.inr ⟨_, rfl⟩
    · exact Or.inr ⟨_, rfl⟩

/-- A concrete active zerodha broker row (no credentials needed for the
duplication counterexample). -/
def broker1Row : JsVal := .obj [("id", .num 1), ("name", .str "zerodha"),
  ("status", .str "active")]

/-- A concrete active alpaca broker row. -/
def broker2Row : JsVal := .obj [("id", .num 2), ("name", .str "alpaca"),
  ("status", .str "active")]

/-- An environment with two active brokers and an unauthenticated
session. -/
def twoBrokersEnv : Env := { baseEnv with
  db := fun q => if q.single then .ok none none
    else .ok (some (.arr [broker1Row, broker2Row])) none,
  eff := fun r => match r with
    | .authGetUser => .ok (some (.obj [("user", .null)])) none
    | _ => .ok none none }

/-- C7 is false on the code as stated: with two active brokers,
`syncFromBrokers` issues the identical `auth.getUser` backend request
once per broker, so its request trace contains a duplicate even though no
call failed and was retried. -/
theorem C7_counterexample : ¬ ((TradingService.syncFromBrokers twoBrokersEnv).2.Nodup) := by
  have h : (TradingService.syncFromBrokers twoBrokersEnv).2 =
      [.read TradingService.brokersQuery, .authGetUser, .authGetUser,
       .update (TradingService.lastSyncUpdate twoBrokersEnv)] := rfl
  rw [h]
  intro hn
  simp [List.nodup_cons] at hn

/-- C7 amended: no operation re-attempts a failed call — within one
credential retrieval and one per-broker sync every request is issued at
most once, each list read and `getPortfolioSummary` issue each query at
most once, and when a broker's sync fails `syncFromBrokers` does nothing
for it beyond appending one `name: error` entry (its `totalImported` is
untouched); only the per-broker repetition of the same `auth.getUser`
and credential lookups across loop iterations recurs, independent of
outcome. -/
theorem C7_amended_no_retry (env : Env) (brokerId : Option JsVal) (filters : JsVal) :
    (BrokerCredentialService.getBrokerCredentials brokerId env).2.Nodup ∧
    (TradingService.syncZerodhaData brokerId env).2.Nodup ∧
    (TradingService.syncInteractiveBrokersData brokerId env).2.Nodup ∧
    (TradingService.syncAlpacaData brokerId env).2.Nodup ∧
    (TradingService.getTrades filters env).2.Nodup ∧
    (TradingService.getAnalyticsData filters env).2.Nodup ∧
    (TradingService.getTradingAccounts env).2.Nodup ∧
    (TradingService.getBrokers env).2.Nodup ∧
    (TradingService.getStrategies env).2.Nodup ∧
    (TradingService.getPortfolioSummary env).2.Nodup ∧
    (∀ st tr b, ((TradingService.syncBrokerStep env (st, tr) b).1.totalImported
        = st.totalImported) ∧
      ((TradingService.syncBrokerStep env (st, tr) b).1.errors = st.errors ∨
       ∃ e, (TradingService.syncBrokerStep env (st, tr) b).1.errors = st.errors ++ [e])) := by
  refine ⟨(getBrokerCredentials_trace_clean brokerId env).2,
    syncZerodhaData_trace_nodup brokerId env,
    syncInteractiveBrokersData_trace_nodup brokerId env,
    syncAlpacaData_trace_nodup brokerId env, ?_, ?_, ?_, ?_, ?_,
    getPortfolioSummary_trace_nodup env,
    fun st tr b => ⟨syncBrokerStep_totalImported env (st, tr) b,
      syncBrokerStep_errors env st tr b⟩⟩
  · rw [getTrades_eq_listRead, listReadResult_trace]
    simp
  · rw [getAnalyticsData_eq_listRead, listReadResult_trace]
    simp
  · rw [getTradingAccounts_eq_listRead, listReadResult_trace]
    simp
  · rw [getBrokers_eq_listRead, listReadResult_trace]
    simp
  · rw [getStrategies_eq_listRead, listReadResult_trace]
    simp

/- ### C1: uniform result shape of the service operations -/

/-- A result object in the uniform error-handling shape: it carries
`success` and `error` fields, and `success` is `true` exactly when
`error` is `null`. -/
def resultShapeOK (r : JsVal) : Prop :=
  r.hasField "success" = true ∧ r.hasField "error" = true ∧
  (r.get "success" = some (.bool true) ↔ r.get "error" = some .null)

theorem listReadResult_shapeOK (q : DbRead) (msg : String) (env : Env) :
    resultShapeOK (listReadResult q msg env).1 := by
  unfold listReadResult
  repeat' split
  all_goals simp [resultShapeOK, JsVal.hasField, JsVal.get, List.lookup]

theorem createTrade_shapeOK (tradeData : JsVal) (env : Env) :
    resultShapeOK (TradingService.createTrade tradeData env).1 := by
  unfold TradingService.createTrade
  rcases he : env.eff .authGetUser with m | ⟨udata, uerr⟩
  · simp [resultShapeOK, JsVal.hasField, JsVal.get, List.lookup]
  · rcases udata with _ | d
    · simp [resultShapeOK, JsVal.hasField, JsVal.get, List.lookup]
    · dsimp only
      by_cases h1 : (uerr.isSome || !(jsTruthy (d.get "user"))) = true
      · simp only [h1, if_pos]
        simp [resultShapeOK, JsVal.hasField, JsVal.get, List.lookup]
      · simp only [Bool.not_eq_true] at h1
        simp only [h1, Bool.false_eq_true, if_neg, not_false_eq_true]
        by_cases h2 : (!(jsTruthy (jsToStr (optGet (d.get "user") "id")))) = true
        · simp only [h2, if_pos]
          simp [resultShapeOK, JsVal.hasField, JsVal.get, List.lookup]
        · simp only [Bool.not_eq_true] at h2
          simp only [h2, Bool.false_eq_true, if_neg, not_false_eq_true]
          by_cases h3 : (!(jsTruthy (tradeData.get "instrument")) ||
              !(jsTruthy (tradeData.get "quantity")) ||
              !(jsTruthy (tradeData.get "entryPrice"))) = true
          · simp only [h3, if_pos]
            simp [resultShapeOK, JsVal.hasField, JsVal.get, List.lookup]
          · simp only [Bool.not_eq_true] at h3
            simp only [h3, Bool.false_eq_true, if_neg, not_false_eq_true]
            split
            · simp [resultShapeOK, JsVal.hasField, JsVal.get, List.lookup]
            · split <;> simp [resultShapeOK, JsVal.hasField, JsVal.get, List.lookup]

theorem updateTrade_shapeOK (tradeId updates : JsVal) (env : Env) :
    resultShapeOK (TradingService.updateTrade tradeId updates env).1 := by
  unfold TradingService.updateTrade
  dsimp only
  split
  · simp [resultShapeOK, JsVal.hasField, JsVal.get, List.lookup]
  · repeat' split
    all_goals simp [resultShapeOK, JsVal.hasField, JsVal.get, List.lookup]

theorem closeTrade_shapeOK (tradeId exitPrice : JsVal) (closedAt : Option String) (env : Env) :
    resultShapeOK (TradingService.closeTrade tradeId exitPrice closedAt env).1 := by
  unfold TradingService.closeTrade
  dsimp only
  split
  · simp [resultShapeOK, JsVal.hasField, JsVal.get, List.lookup]
  · repeat' split
    all_goals simp [resultShapeOK, JsVal.hasField, JsVal.get, List.lookup]

theorem deleteTrade_shapeOK (tradeId : JsVal) (env : Env) :
    resultShapeOK (TradingService.deleteTrade tradeId env).1 := by
  unfold TradingService.deleteTrade
  dsimp only
  split
  · simp [resultShapeOK, JsVal.hasField, JsVal.get, List.lookup]
  · repeat' split
    all_goals simp [resultShapeOK, JsVal.hasField, JsVal.get, List.lookup]

theorem getPortfolioSummary_shapeOK (env : Env) :
    resultShapeOK (TradingService.getPortfolioSummary env).1 := by
  unfold TradingService.getPortfolioSummary
  dsimp only
  split
  · simp [resultShapeOK, JsVal.hasField, JsVal.get, List.lookup]
  · repeat' split
    all_goals simp [resultShapeOK, JsVal.hasField, JsVal.get, List.lookup]

theorem storeBrokerCredentials_shapeOK (brokerData : JsVal) (env : Env) :
    resultShapeOK (BrokerCredentialService.storeBrokerCredentials brokerData env).1 := by
  unfold BrokerCredentialService.storeBrokerCredentials
  split
  · simp [resultShapeOK, JsVal.hasField, JsVal.get, List.lookup]
  · dsimp only
    split
    · simp [resultShapeOK, JsVal.hasField, JsVal.get, List.lookup]
    · repeat' split
      all_goals simp [resultShapeOK, JsVal.hasField, JsVal.get, List.lookup]

theorem getBrokerCredentials_shapeOK (brokerId : Option JsVal) (env : Env) :
    resultShapeOK (BrokerCredentialService.getBrokerCredentials brokerId env).1 := by
  unfold BrokerCredentialService.getBrokerCredentials
  split
  · simp [resultShapeOK, JsVal.hasField, JsVal.get, List.lookup]
  · split
    · simp [resultShapeOK, JsVal.hasField, JsVal.get, List.lookup]
    · dsimp only
      split
      · simp [resultShapeOK, JsVal.hasField, JsVal.get, List.lookup]
      · split
        · simp [resultShapeOK, JsVal.hasField, JsVal.get, List.lookup]
        · split
          · simp [resultShapeOK, JsVal.hasField, JsVal.get, List.lookup]
          · split
            · split
              · simp [resultShapeOK, JsVal.hasField, JsVal.get, List.lookup]
              · simp [resultShapeOK, JsVal.hasField, JsVal.get, List.lookup]
            · simp [resultShapeOK, JsVal.hasField, JsVal.get, List.lookup]

theorem updateBrokerCredentials_shapeOK (brokerId : Option JsVal) (newCredentials : JsVal)
    (env : Env) :
    resultShapeOK (BrokerCredentialService.updateBrokerCredentials brokerId newCredentials
      env).1 := by
  unfold BrokerCredentialService.updateBrokerCredentials
  split
  · simp [resultShapeOK, JsVal.hasField, JsVal.get, List.lookup]
  · dsimp only
    split
    · simp [resultShapeOK, JsVal.hasField, JsVal.get, List.lookup]
    · repeat' split
      all_goals simp [resultShapeOK, JsVal.hasField, JsVal.get, List.lookup]

theorem updateBrokerStatus_shapeOK (brokerId : Option JsVal) (status : JsVal) (env : Env) :
    resultShapeOK (BrokerCredentialService.updateBrokerStatus brokerId status env).1 := by
  unfold BrokerCredentialService.updateBrokerStatus
  split
  · simp [resultShapeOK, JsVal.hasField, JsVal.get, List.lookup]
  · dsimp only
    split
    · simp [resultShapeOK, JsVal.hasField, JsVal.get, List.lookup]
    · repeat' split
      all_goals simp [resultShapeOK, JsVal.hasField, JsVal.get, List.lookup]

theorem deleteBrokerCredentials_shapeOK (brokerId : Option JsVal) (env : Env) :
    resultShapeOK (BrokerCredentialService.deleteBrokerCredentials brokerId env).1 := by
  unfold BrokerCredentialService.deleteBrokerCredentials
  split
  · simp [resultShapeOK, JsVal.hasField, JsVal.get, List.lookup]
  · dsimp only
    split
    · simp [resultShapeOK, JsVal.hasField, JsVal.get, List.lookup]
    · repeat' split
      all_goals simp [resultShapeOK, JsVal.hasField, JsVal.get, List.lookup]

theorem testZerodhaConnection_shapeOK (credentials : Option JsVal) (env : Env) :
    resultShapeOK (BrokerCredentialService.testZerodhaConnection credentials env).1 := by
  unfold BrokerCredentialService.testZerodhaConnection
  try dsimp only
  repeat' split
  all_goals simp [resultShapeOK, JsVal.hasField, JsVal.get, List.lookup]

theorem testUpstoxConnection_shapeOK (credentials : Option JsVal) (env : Env) :
    resultShapeOK (BrokerCredentialService.testUpstoxConnection credentials env).1 := by
  unfold BrokerCredentialService.testUpstoxConnection
  try dsimp only
  repeat' split
  all_goals simp [resultShapeOK, JsVal.hasField, JsVal.get, List.lookup]

theorem testInteractiveBrokersConnection_shapeOK (credentials : Option JsVal) (env : Env) :
    resultShapeOK (BrokerCredentialService.testInteractiveBrokersConnection credentials
      env).1 := by
  simp [BrokerCredentialService.testInteractiveBrokersConnection, resultShapeOK,
    JsVal.hasField, JsVal.get, List.lookup]

theorem testMT5Connection_shapeOK (credentials : Option JsVal) (env : Env) :
    resultShapeOK (BrokerCredentialService.testMT5Connection credentials env).1 := by
  simp [BrokerCredentialService.testMT5Connection, resultShapeOK, JsVal.hasField,
    JsVal.get, List.lookup]

theorem testAlpacaConnection_shapeOK (credentials : Option JsVal) (env : Env) :
    resultShapeOK (BrokerCredentialService.testAlpacaConnection credentials env).1 := by
  unfold BrokerCredentialService.testAlpacaConnection
  try dsimp only
  repeat' split
  all_goals simp [resultShapeOK, JsVal.hasField, JsVal.get, List.lookup]

theorem testBrokerConnection_shapeOK (brokerId : Option JsVal) (env : Env) :
    resultShapeOK (BrokerCredentialService.testBrokerConnection brokerId env).1 := by
  unfold BrokerCredentialService.testBrokerConnection
  by_cases hc : (!(jsTruthy ((BrokerCredentialService.getBrokerCredentials brokerId
      env).1.get "success"))) = true
  · simp only [hc, if_pos]
    exact getBrokerCredentials_shapeOK brokerId env
  · simp only [Bool.not_eq_true] at hc
    simp only [hc, Bool.false_eq_true, if_neg, not_false_eq_true]
    try dsimp only
    split
    · split_ifs
      · exact testZerodhaConnection_shapeOK (optGet
          ((BrokerCredentialService.getBrokerCredentials brokerId env).1.get "data")
          "credentials") env
      · exact testUpstoxConnection_shapeOK (optGet
          ((BrokerCredentialService.getBrokerCredentials brokerId env).1.get "data")
          "credentials") env
      · exact testInteractiveBrokersConnection_shapeOK (optGet
          ((BrokerCredentialService.getBrokerCredentials brokerId env).1.get "data")
          "credentials") env
      · exact testMT5Connection_shapeOK (optGet
          ((BrokerCredentialService.getBrokerCredentials brokerId env).1.get "data")
          "credentials") env
      · exact testAlpacaConnection_shapeOK (optGet
          ((BrokerCredentialService.getBrokerCredentials brokerId env).1.get "data")
          "credentials") env
      · simp [resultShapeOK, JsVal.hasField, JsVal.get, List.lookup]
    · simp [resultShapeOK, JsVal.hasField, JsVal.get, List.lookup]
    · simp [resultShapeOK, JsVal.hasField, JsVal.get, List.lookup]

theorem createTradingAccountFromBroker_shapeOK (brokerId : Option JsVal)
    (brokerData : JsVal) (env : Env) :
    resultShapeOK (TradingService.createTradingAccountFromBroker brokerId brokerData
      env).1 := by
  unfold TradingService.createTradingAccountFromBroker
  split
  · simp [resultShapeOK, JsVal.hasField, JsVal.get, List.lookup]
  · dsimp only
    split
    · simp [resultShapeOK, JsVal.hasField, JsVal.get, List.lookup]
    · repeat' split
      all_goals simp [resultShapeOK, JsVal.hasField, JsVal.get, List.lookup]

theorem addBroker_shapeOK (brokerData : JsVal) (env : Env) :
    resultShapeOK (TradingService.addBroker brokerData env).1 := by
  unfold TradingService.addBroker
  by_cases hc : (!(jsTruthy ((BrokerCredentialService.storeBrokerCredentials brokerData
      env).1.get "success"))) = true
  · simp only [hc, if_pos]
    exact storeBrokerCredentials_shapeOK brokerData env
  · simp only [Bool.not_eq_true] at hc
    simp only [hc, Bool.false_eq_true, if_neg, not_false_eq_true]
    split_ifs <;> simp [resultShapeOK, JsVal.hasField, JsVal.get, List.lookup]

theorem syncZerodhaData_shapeOK (brokerId : Option JsVal) (env : Env) :
    resultShapeOK (TradingService.syncZerodhaData brokerId env).1 := by
  unfold TradingService.syncZerodhaData
  by_cases hc : jsTruthy ((BrokerCredentialService.getBrokerCredentials brokerId env).1.get
      "success") = true
  · simp only [hc, Bool.not_true, Bool.false_eq_true, if_neg, not_false_eq_true]
    split
    · simp [resultShapeOK, JsVal.hasField, JsVal.get, List.lookup]
    · split <;> simp [resultShapeOK, JsVal.hasField, JsVal.get, List.lookup]
  · simp only [Bool.not_eq_true] at hc
    simp only [hc, Bool.not_false, if_pos]
    exact getBrokerCredentials_shapeOK brokerId env

theorem syncInteractiveBrokersData_shapeOK (brokerId : Option JsVal) (env : Env) :
    resultShapeOK (TradingService.syncInteractiveBrokersData brokerId env).1 := by
  unfold TradingService.syncInteractiveBrokersData
  by_cases hc : jsTruthy ((BrokerCredentialService.getBrokerCredentials brokerId env).1.get
      "success") = true
  · simp only [hc, Bool.not_true, Bool.false_eq_true, if_neg, not_false_eq_true]
    simp [resultShapeOK, JsVal.hasField, JsVal.get, List.lookup]
  · simp only [Bool.not_eq_true] at hc
    simp only [hc, Bool.not_false, if_pos]
    exact getBrokerCredentials_shapeOK brokerId env

theorem syncAlpacaData_shapeOK (brokerId : Option JsVal) (env : Env) :
    resultShapeOK (TradingService.syncAlpacaData brokerId env).1 := by
  unfold TradingService.syncAlpacaData
  by_cases hc : jsTruthy ((BrokerCredentialService.getBrokerCredentials brokerId env).1.get
      "success") = true
  · simp only [hc, Bool.not_true, Bool.false_eq_true, if_neg, not_false_eq_true]
    split
    · simp [resultShapeOK, JsVal.hasField, JsVal.get, List.lookup]
    · split <;> simp [resultShapeOK, JsVal.hasField, JsVal.get, List.lookup]
  · simp only [Bool.not_eq_true] at hc
    simp only [hc, Bool.not_false, if_pos]
    exact getBrokerCredentials_shapeOK brokerId env

theorem syncFromBrokers_shapeOK (env : Env) :
    resultShapeOK (TradingService.syncFromBrokers env).1 := by
  unfold TradingService.syncFromBrokers
  by_cases hg : (!(jsTruthy ((TradingService.getBrokers env).1.get "success"))) = true
  · simp only [hg, if_pos]
    simp [resultShapeOK, JsVal.hasField, JsVal.get, List.lookup]
  · simp only [Bool.not_eq_true] at hg
    simp only [hg, Bool.false_eq_true, if_neg, not_false_eq_true]
    try dsimp only
    split
    · rename_i rows hrows
      have htotal : ((TradingService.activeBrokersOf rows).foldl
          (TradingService.syncBrokerStep env)
          (TradingService.initSyncState, [])).1.totalImported = 0 :=
        syncLoop_totalImported env (TradingService.activeBrokersOf rows)
          (TradingService.initSyncState, [])
      split
      · simp [resultShapeOK, JsVal.hasField, JsVal.get, List.lookup]
      · by_cases he : (((TradingService.activeBrokersOf rows).foldl
            (TradingService.syncBrokerStep env)
            (TradingService.initSyncState, [])).1.errors).isEmpty = true
        · simp [resultShapeOK, JsVal.hasField, JsVal.get, List.lookup, he, htotal]
        · simp only [Bool.not_eq_true] at he
          simp [resultShapeOK, JsVal.hasField, JsVal.get, List.lookup, he, htotal]
    · simp [resultShapeOK, JsVal.hasField, JsVal.get, List.lookup]

theorem getBrokerStatus_shapeOK (env : Env) :
    resultShapeOK (TradingService.getBrokerStatus env).1 := by
  unfold TradingService.getBrokerStatus
  by_cases hg : jsTruthy ((TradingService.getBrokers env).1.get "success") = true
  · simp only [hg, if_pos]
    try dsimp only
    split
    · split <;> simp [resultShapeOK, JsVal.hasField, JsVal.get, List.lookup]
    · simp [resultShapeOK, JsVal.hasField, JsVal.get, List.lookup]
  · simp only [Bool.not_eq_true] at hg
    simp only [hg, Bool.false_eq_true, if_neg, not_false_eq_true]
    simp [resultShapeOK, JsVal.hasField, JsVal.get, List.lookup]

theorem connectErrResult_shapeOK (msg : String) :
    resultShapeOK (AuthService.connectErrResult msg) := by
  unfold AuthService.connectErrResult
  split_ifs <;> simp [resultShapeOK, JsVal.hasField, JsVal.get, List.lookup]

theorem signUp_shapeOK (email password : String) (userData : JsVal) (env : Env) :
    resultShapeOK (AuthService.signUp email password userData env).1 := by
  unfold AuthService.signUp
  try dsimp only
  split
  · exact connectErrResult_shapeOK _
  · split <;> simp [resultShapeOK, JsVal.hasField, JsVal.get, List.lookup]

theorem signIn_shapeOK (email password : String) (env : Env) :
    resultShapeOK (AuthService.signIn email password env).1 := by
  unfold AuthService.signIn
  try dsimp only
  split
  · exact connectErrResult_shapeOK _
  · split <;> simp [resultShapeOK, JsVal.hasField, JsVal.get, List.lookup]

theorem signOut_shapeOK (env : Env) :
    resultShapeOK (AuthService.signOut env).1 := by
  unfold AuthService.signOut
  repeat' split
  all_goals simp [resultShapeOK, JsVal.hasField, JsVal.get, List.lookup]

theorem getCurrentSession_shapeOK (env : Env) :
    resultShapeOK (AuthService.getCurrentSession env).1 := by
  unfold AuthService.getCurrentSession
  repeat' split
  all_goals simp [resultShapeOK, JsVal.hasField, JsVal.get, List.lookup]

theorem getCurrentUserProfile_shapeOK (env : Env) :
    resultShapeOK (AuthService.getCurrentUserProfile env).1 := by
  unfold AuthService.getCurrentUserProfile
  rcases he : env.eff .authGetUser with m | ⟨udata, uerr⟩
  · simp [resultShapeOK, JsVal.hasField, JsVal.get, List.lookup]
  · rcases udata with _ | d
    · simp [resultShapeOK, JsVal.hasField, JsVal.get, List.lookup]
    · dsimp only
      by_cases h1 : (uerr.isSome || !(jsTruthy (d.get "user"))) = true
      · simp only [h1, if_pos]
        simp [resultShapeOK, JsVal.hasField, JsVal.get, List.lookup]
      · simp only [Bool.not_eq_true] at h1
        simp only [h1, Bool.false_eq_true, if_neg, not_false_eq_true]
        repeat' split
        all_goals simp [resultShapeOK, JsVal.hasField, JsVal.get, List.lookup]

theorem updateProfile_shapeOK (updates : JsVal) (env : Env) :
    resultShapeOK (AuthService.updateProfile updates env).1 := by
  unfold AuthService.updateProfile
  rcases he : env.eff .authGetUser with m | ⟨udata, uerr⟩
  · simp [resultShapeOK, JsVal.hasField, JsVal.get, List.lookup]
  · rcases udata with _ | d
    · simp [resultShapeOK, JsVal.hasField, JsVal.get, List.lookup]
    · dsimp only
      by_cases h1 : (uerr.isSome || !(jsTruthy (d.get "user"))) = true
      · simp only [h1, if_pos]
        simp [resultShapeOK, JsVal.hasField, JsVal.get, List.lookup]
      · simp only [Bool.not_eq_true] at h1
        simp only [h1, Bool.false_eq_true, if_neg, not_false_eq_true]
        split
        · simp [resultShapeOK, JsVal.hasField, JsVal.get, List.lookup]
        · split <;> simp [resultShapeOK, JsVal.hasField, JsVal.get, List.lookup]

theorem resetPassword_shapeOK (email : String) (env : Env) :
    resultShapeOK (AuthService.resetPassword email env).1 := by
  unfold AuthService.resetPassword
  try dsimp only
  repeat' split
  all_goals simp [resultShapeOK, JsVal.hasField, JsVal.get, List.lookup]

theorem updatePassword_shapeOK (newPassword : String) (env : Env) :
    resultShapeOK (AuthService.updatePassword newPassword env).1 := by
  unfold AuthService.updatePassword
  try dsimp only
  repeat' split
  all_goals simp [resultShapeOK, JsVal.hasField, JsVal.get, List.lookup]

theorem signInWithProvider_shapeOK (provider : String) (env : Env) :
    resultShapeOK (AuthService.signInWithProvider provider env).1 := by
  unfold AuthService.signInWithProvider
  try dsimp only
  repeat' split
  all_goals simp [resultShapeOK, JsVal.hasField, JsVal.get, List.lookup]

/-- C1 is false on the code as stated: a successful `deleteTrade` returns
`{success: true, error: null}` with no `data` field at all, so not every
service operation returns the three-field `{success, data, error}`
shape. -/
theorem C1_counterexample :
    jsTruthy ((TradingService.deleteTrade (.str "t1") baseEnv).1.get "success") = true ∧
    (TradingService.deleteTrade (.str "t1") baseEnv).1.hasField "data" = false := by
  decide

/-- C1 amended: every public async operation of `TradingService`,
`BrokerCredentialService` and `AuthService` returns an object carrying
`success` and `error` fields with `success = true` exactly when
`error = null`, and every backend-client error (rejection or error
payload) is caught and mapped into this shape rather than propagated;
the `data` field however is not universal — `deleteTrade`,
`deleteBrokerCredentials`, `signOut`, `resetPassword`, `updatePassword`
and several failure paths omit it, and the session/profile getters name
their payload field `session`/`profile` instead. -/
theorem C1_amended_uniform_result_shape (env : Env)
    (filters tradeData tradeId updates exitPrice brokerData newCredentials status : JsVal)
    (brokerId credentials : Option JsVal) (closedAt : Option String)
    (email password provider : String) (userData : JsVal) :
    resultShapeOK (TradingService.getTradingAccounts env).1 ∧
    resultShapeOK (TradingService.getTrades filters env).1 ∧
    resultShapeOK (TradingService.createTrade tradeData env).1 ∧
    resultShapeOK (TradingService.updateTrade tradeId updates env).1 ∧
    resultShapeOK (TradingService.closeTrade tradeId exitPrice closedAt env).1 ∧
    resultShapeOK (TradingService.deleteTrade tradeId env).1 ∧
    resultShapeOK (TradingService.getPortfolioSummary env).1 ∧
    resultShapeOK (TradingService.getAnalyticsData filters env).1 ∧
    resultShapeOK (TradingService.getBrokers env).1 ∧
    resultShapeOK (TradingService.addBroker brokerData env).1 ∧
    resultShapeOK (TradingService.createTradingAccountFromBroker brokerId brokerData env).1 ∧
    resultShapeOK (TradingService.syncFromBrokers env).1 ∧
    resultShapeOK (TradingService.syncZerodhaData brokerId env).1 ∧
    resultShapeOK (TradingService.syncInteractiveBrokersData brokerId env).1 ∧
    resultShapeOK (TradingService.syncAlpacaData brokerId env).1 ∧
    resultShapeOK (TradingService.getBrokerStatus env).1 ∧
    resultShapeOK (TradingService.getStrategies env).1 ∧
    resultShapeOK (BrokerCredentialService.storeBrokerCredentials brokerData env).1 ∧
    resultShapeOK (BrokerCredentialService.getBrokerCredentials brokerId env).1 ∧
    resultShapeOK (BrokerCredentialService.updateBrokerCredentials brokerId newCredentials
      env).1 ∧
    resultShapeOK (BrokerCredentialService.testBrokerConnection brokerId env).1 ∧
    resultShapeOK (BrokerCredentialService.testZerodhaConnection credentials env).1 ∧
    resultShapeOK (BrokerCredentialService.testUpstoxConnection credentials env).1 ∧
    resultShapeOK (BrokerCredentialService.testInteractiveBrokersConnection credentials
      env).1 ∧
    resultShapeOK (BrokerCredentialService.testMT5Connection credentials env).1 ∧
    resultShapeOK (BrokerCredentialService.testAlpacaConnection credentials env).1 ∧
    resultShapeOK (BrokerCredentialService.updateBrokerStatus brokerId status env).1 ∧
    resultShapeOK (BrokerCredentialService.deleteBrokerCredentials brokerId env).1 ∧
    resultShapeOK (AuthService.signUp email password userData env).1 ∧
    resultShapeOK (AuthService.signIn email password env).1 ∧
    resultShapeOK (AuthService.signOut env).1 ∧
    resultShapeOK (AuthService.getCurrentSession env).1 ∧
    resultShapeOK (AuthService.getCurrentUserProfile env).1 ∧
    resultShapeOK (AuthService.updateProfile updates env).1 ∧
    resultShapeOK (AuthService.resetPassword email env).1 ∧
    resultShapeOK (AuthService.updatePassword password env).1 ∧
    resultShapeOK (AuthService.signInWithProvider provider env).1 :=
  ⟨listReadResult_shapeOK _ _ env,
   listReadResult_shapeOK _ _ env,
   createTrade_shapeOK tradeData env,
   updateTrade_shapeOK tradeId updates env,
   closeTrade_shapeOK tradeId exitPrice closedAt env,
   deleteTrade_shapeOK tradeId env,
   getPortfolioSummary_shapeOK env,
   listReadResult_shapeOK _ _ env,
   listReadResult_shapeOK _ _ env,
   addBroker_shapeOK brokerData env,
   createTradingAccountFromBroker_shapeOK brokerId brokerData env,
   syncFromBrokers_shapeOK env,
   syncZerodhaData_shapeOK brokerId env,
   syncInteractiveBrokersData_shapeOK brokerId env,
   syncAlpacaData_shapeOK brokerId env,
   getBrokerStatus_shapeOK env,
   listReadResult_shapeOK _ _ env,
   storeBrokerCredentials_shapeOK brokerData env,
   getBrokerCredentials_shapeOK brokerId env,
   updateBrokerCredentials_shapeOK brokerId newCredentials env,
   testBrokerConnection_shapeOK brokerId env,
   testZerodhaConnection_shapeOK credentials env,
   testUpstoxConnection_shapeOK credentials env,
   testInteractiveBrokersConnection_shapeOK credentials env,
   testMT5Connection_shapeOK credentials env,
   testAlpacaConnection_shapeOK credentials env,
   updateBrokerStatus_shapeOK brokerId status env,
   deleteBrokerCredentials_shapeOK brokerId env,
   signUp_shapeOK email password userData env,
   signIn_shapeOK email password env,
   signOut_shapeOK env,
   getCurrentSession_shapeOK env,
   getCurrentUserProfile_shapeOK env,
   updateProfile_shapeOK updates env,
   resetPassword_shapeOK email env,
   updatePassword_shapeOK password env,
   signInWithProvider_shapeOK provider env⟩
